import Mathlib

/-!
# Verification development for the LINE bot SDK (package `linebot`)

The first part embeds `linebot/template.go`: the template and template-action
data model, their constructors and their `MarshalJSON` methods, together with
the part of Go's `encoding/json` that these methods rely on (struct encoding in
field order, the `omitempty` option, the coercion of strings to valid UTF-8,
nil slices, nil pointers and values that implement `json.Marshaler`).

Conventions of the embedding:

* a Go `string` is a `GoString`, a sequence of bytes that need not be valid
  UTF-8; a JSON string is a Lean `String`, a sequence of Unicode characters;
* a Go slice is a `Slice`: the nil slice or a list of elements;
* a Go pointer to a struct is `Option` of the struct (`none` is the nil
  pointer) wherever the pointer can be nil: the columns of a carousel and the
  pointer held by a `TemplateAction` interface value; a constructor returns
  the address of a fresh struct and is modelled by that struct, and the
  methods of the templates are called on the address of a template value;
* `MarshalJSON` returns the JSON document it encodes, as a tree whose object
  members keep the order in which they are written, or fails; a failure is an
  error returned by `json.Marshal` or the run-time panic of a nil pointer
  dereference.
-/

namespace Linebot

/-! ## Go strings and their coercion to valid UTF-8 -/

/-- A Go string: a sequence of bytes, each a natural number below 256. The
bytes need not be valid UTF-8. -/
abbrev GoString := List Nat

/-- The Unicode replacement character U+FFFD, Go's `utf8.RuneError`. -/
def RuneError : Char := Char.ofNat 0xFFFD

/-- The UTF-8 encoding of the Unicode scalar value `v`. -/
def encodeScalar (v : Nat) : List Nat :=
  if v < 0x80 then [v]
  else if v < 0x800 then [0xC0 + v / 64, 0x80 + v % 64]
  else if v < 0x10000 then [0xE0 + v / 4096, 0x80 + (v / 64) % 64, 0x80 + v % 64]
  else [0xF0 + v / 262144, 0x80 + (v / 4096) % 64, 0x80 + (v / 64) % 64, 0x80 + v % 64]

/-- The UTF-8 encoding of a character. -/
def encodeRune (c : Char) : List Nat := encodeScalar c.toNat

/-- The UTF-8 encoding of a sequence of characters. -/
def utf8Chars : List Char → GoString
  | [] => []
  | c :: cs => encodeRune c ++ utf8Chars cs

/-- The Go string that a string literal of the source denotes: the UTF-8
encoding of its text. -/
def utf8 (s : String) : GoString := utf8Chars s.data

/-- A Go string is valid UTF-8 when it is the encoding of some text. -/
def IsUTF8 (s : GoString) : Prop := ∃ u : String, utf8 u = s

/-- A continuation byte, `0x80` to `0xBF`. -/
def isCont (b : Nat) : Bool := 0x80 ≤ b && b ≤ 0xBF

/-- The least second byte allowed after the lead byte `b0` (no overlong
encoding). -/
def acceptLo (b0 : Nat) : Nat :=
  if b0 = 0xE0 then 0xA0 else if b0 = 0xF0 then 0x90 else 0x80

/-- The greatest second byte allowed after the lead byte `b0` (no surrogate,
nothing above U+10FFFF). -/
def acceptHi (b0 : Nat) : Nat :=
  if b0 = 0xED then 0x9F else if b0 = 0xF4 then 0x8F else 0xBF

/-- Go's `utf8.DecodeRuneInString`: the first character of the bytes and its
width; bytes that do not start a valid encoding give U+FFFD and width 1. -/
def decodeRune : GoString → Char × Nat
  | [] => (RuneError, 1)
  | b0 :: rest =>
    if b0 < 0x80 then (Char.ofNat b0, 1)
    else if 0xC2 ≤ b0 ∧ b0 ≤ 0xDF then
      match rest with
      | b1 :: _ =>
        if isCont b1 then (Char.ofNat ((b0 % 32) * 64 + b1 % 64), 2) else (RuneError, 1)
      | _ => (RuneError, 1)
    else if 0xE0 ≤ b0 ∧ b0 ≤ 0xEF then
      match rest with
      | b1 :: b2 :: _ =>
        if acceptLo b0 ≤ b1 ∧ b1 ≤ acceptHi b0 ∧ isCont b2 then
          (Char.ofNat ((b0 % 16) * 4096 + (b1 % 64) * 64 + b2 % 64), 3)
        else (RuneError, 1)
      | _ => (RuneError, 1)
    else if 0xF0 ≤ b0 ∧ b0 ≤ 0xF4 then
      match rest with
      | b1 :: b2 :: b3 :: _ =>
        if acceptLo b0 ≤ b1 ∧ b1 ≤ acceptHi b0 ∧ isCont b2 ∧ isCont b3 then
          (Char.ofNat ((b0 % 8) * 262144 + (b1 % 64) * 4096 + (b2 % 64) * 64 + b3 % 64), 4)
        else (RuneError, 1)
      | _ => (RuneError, 1)
    else (RuneError, 1)

/-- The characters `encoding/json` writes for the bytes of a Go string: it
decodes one character after the other and advances by its width; `skip`
counts the bytes still covered by the character decoded last. -/
def decodeFrom : GoString → Nat → List Char
  | [], _ => []
  | b :: rest, 0 =>
    (decodeRune (b :: rest)).1 :: decodeFrom rest ((decodeRune (b :: rest)).2 - 1)
  | _ :: rest, skip + 1 => decodeFrom rest skip

/-- The text of the JSON string that `encoding/json` writes for a Go string:
the string coerced to valid UTF-8, every invalid byte replaced by U+FFFD. -/
def toValidUTF8 (s : GoString) : String := String.mk (decodeFrom s 0)

/-! ## JSON documents and the encoder of `encoding/json` -/

/-- A JSON document. The members of an object are kept in document order. -/
inductive JSON where
  | null : JSON
  | bool (b : Bool) : JSON
  | num (n : Int) : JSON
  | str (s : String) : JSON
  | arr (elems : List JSON) : JSON
  | obj (members : List (String × JSON)) : JSON

/-- The value of the first member of object `j` named `key`, if there is one. -/
def JSON.member? (j : JSON) (key : String) : Option JSON :=
  match j with
  | .obj members => members.lookup key
  | _ => none

/-- The keys of the members of an object, in document order. -/
def JSON.keys (j : JSON) : List String :=
  match j with
  | .obj members => members.map Prod.fst
  | _ => []

/-- The ways a marshaling call can fail: the errors `json.Marshal` returns,
and the run-time panic of a nil pointer dereference, which `json.Marshal`
does not recover from. -/
inductive MarshalError where
  | unsupportedType (typ : String) : MarshalError
  | unsupportedValue (val : String) : MarshalError
  | marshalerError (typ : String) (cause : MarshalError) : MarshalError
  | nilPointerDereference : MarshalError

/-- A Go slice: the nil slice, or a (possibly empty) sequence of elements. -/
inductive Slice (α : Type) where
  | nil : Slice α
  | elems (xs : List α) : Slice α

/-- Go's `len(s)`. -/
def Slice.len {α : Type} : Slice α → Nat
  | .nil => 0
  | .elems xs => xs.length

/-- The elements of a slice; the nil slice has none. -/
def Slice.toList {α : Type} : Slice α → List α
  | .nil => []
  | .elems xs => xs

/-- The slice a variadic parameter `xs ...T` is bound to when the call passes
the arguments `args` one by one: the nil slice when there are none. -/
def variadic {α : Type} (args : List α) : Slice α :=
  match args with
  | [] => .nil
  | _ :: _ => .elems args

/-- One field of a struct as `encoding/json` sees it: the key from its `json`
tag, whether the tag carries `omitempty`, whether the field holds the empty
value of its type, and the encoding of its value. -/
structure Field where
  key : String
  omitempty : Bool
  empty : Bool
  value : Except MarshalError JSON

/-- The encoder of a Go string: the JSON string of its text coerced to valid
UTF-8. -/
def marshalString (s : GoString) : Except MarshalError JSON :=
  .ok (.str (toValidUTF8 s))

/-- The encoder of the elements of an array, in order; the first element
error aborts. -/
def marshalElems {α : Type} (enc : α → Except MarshalError JSON) :
    List α → Except MarshalError (List JSON)
  | [] => .ok []
  | x :: xs =>
    match enc x with
    | .error e => .error e
    | .ok j =>
      match marshalElems enc xs with
      | .error e => .error e
      | .ok js => .ok (j :: js)

/-- The encoder of a slice: `null` for the nil slice, otherwise the array of
the encoded elements. -/
def marshalSlice {α : Type} (enc : α → Except MarshalError JSON) :
    Slice α → Except MarshalError JSON
  | .nil => .ok .null
  | .elems xs =>
    match marshalElems enc xs with
    | .error e => .error e
    | .ok js => .ok (.arr js)

/-- The encoder of a pointer: `null` for the nil pointer, otherwise the
encoding of the value pointed to. -/
def marshalPtr {α : Type} (enc : α → Except MarshalError JSON) :
    Option α → Except MarshalError JSON
  | none => .ok .null
  | some v => enc v

/-- The encoder of a value implementing `json.Marshaler`, given the outcome of
its `MarshalJSON` call: the document is taken over, a returned error is
wrapped, and a panic goes on unwinding. -/
def marshalMarshaler (typ : String) (r : Except MarshalError JSON) :
    Except MarshalError JSON :=
  match r with
  | .ok j => .ok j
  | .error .nilPointerDereference => .error .nilPointerDereference
  | .error e => .error (.marshalerError typ e)

/-- A string field: empty when the string has length zero. -/
def stringField (key : String) (omitempty : Bool) (s : GoString) : Field :=
  { key := key, omitempty := omitempty, empty := s.length == 0, value := marshalString s }

/-- A slice field: empty when the slice has length zero. -/
def sliceField {α : Type} (key : String) (omitempty : Bool)
    (enc : α → Except MarshalError JSON) (s : Slice α) : Field :=
  { key := key, omitempty := omitempty, empty := s.len == 0, value := marshalSlice enc s }

/-- The members written for a sequence of struct fields: fields are visited in
declaration order, a field tagged `omitempty` holding an empty value is
skipped, and the first error aborts. -/
def marshalFields : List Field → Except MarshalError (List (String × JSON))
  | [] => .ok []
  | f :: fs =>
    if f.omitempty && f.empty then marshalFields fs
    else
      match f.value with
      | .error e => .error e
      | .ok v =>
        match marshalFields fs with
        | .error e => .error e
        | .ok rest => .ok ((f.key, v) :: rest)

/-- The encoder of a struct (or of a pointer to one, as passed to
`json.Marshal`): a JSON object of the written members. -/
def marshalStruct (fields : List Field) : Except MarshalError JSON :=
  match marshalFields fields with
  | .error e => .error e
  | .ok members => .ok (.obj members)

/-! ## `template.go`: constants -/

/-- Constant `TemplateTypeButtons`. -/
def TemplateTypeButtons : GoString := utf8 "buttons"
/-- Constant `TemplateTypeConfirm`. -/
def TemplateTypeConfirm : GoString := utf8 "confirm"
/-- Constant `TemplateTypeCarousel`. -/
def TemplateTypeCarousel : GoString := utf8 "carousel"

/-- Constant `TemplateActionTypeURI`. -/
def TemplateActionTypeURI : GoString := utf8 "uri"
/-- Constant `TemplateActionTypeMessage`. -/
def TemplateActionTypeMessage : GoString := utf8 "message"
/-- Constant `TemplateActionTypePostback`. -/
def TemplateActionTypePostback : GoString := utf8 "postback"

/-! ## `template.go`: template actions -/

/-- Type `URITemplateAction`. -/
structure URITemplateAction where
  Label : GoString
  URI : GoString

/-- Type `MessageTemplateAction`. -/
structure MessageTemplateAction where
  Label : GoString
  Text : GoString

/-- Type `PostbackTemplateAction`. -/
structure PostbackTemplateAction where
  Label : GoString
  Data : GoString
  Text : GoString

/-- Method `(*URITemplateAction).MarshalJSON`; the receiver is a pointer, and
reading `a.Label` through the nil pointer panics. -/
def URITemplateAction.MarshalJSON (a : Option URITemplateAction) :
    Except MarshalError JSON :=
  match a with
  | none => .error .nilPointerDereference
  | some a =>
    marshalStruct [
      stringField "type" false TemplateActionTypeURI,
      stringField "label" false a.Label,
      stringField "uri" false a.URI]

/-- Method `(*MessageTemplateAction).MarshalJSON`; the receiver is a pointer,
and reading `a.Label` through the nil pointer panics. -/
def MessageTemplateAction.MarshalJSON (a : Option MessageTemplateAction) :
    Except MarshalError JSON :=
  match a with
  | none => .error .nilPointerDereference
  | some a =>
    marshalStruct [
      stringField "type" false TemplateActionTypeMessage,
      stringField "label" false a.Label,
      stringField "text" false a.Text]

/-- Method `(*PostbackTemplateAction).MarshalJSON`; the receiver is a pointer,
and reading `a.Label` through the nil pointer panics. -/
def PostbackTemplateAction.MarshalJSON (a : Option PostbackTemplateAction) :
    Except MarshalError JSON :=
  match a with
  | none => .error .nilPointerDereference
  | some a =>
    marshalStruct [
      stringField "type" false TemplateActionTypePostback,
      stringField "label" false a.Label,
      stringField "data" false a.Data,
      stringField "text" true a.Text]

/-- A value of the interface type `TemplateAction`: the nil interface, or a
pointer to one of the three structs that implement it; the pointer held by a
non-nil interface value can itself be nil (`none`). -/
inductive TemplateAction where
  | nil : TemplateAction
  | uri (p : Option URITemplateAction) : TemplateAction
  | message (p : Option MessageTemplateAction) : TemplateAction
  | postback (p : Option PostbackTemplateAction) : TemplateAction

/-- The encoder `encoding/json` uses for a value of interface type
`TemplateAction`: `null` for the nil interface, otherwise the `MarshalJSON` of
the pointer the value holds, also when that pointer is nil. -/
def marshalTemplateAction : TemplateAction → Except MarshalError JSON
  | .nil => .ok .null
  | .uri p =>
    marshalMarshaler "*linebot.URITemplateAction" (URITemplateAction.MarshalJSON p)
  | .message p =>
    marshalMarshaler "*linebot.MessageTemplateAction" (MessageTemplateAction.MarshalJSON p)
  | .postback p =>
    marshalMarshaler "*linebot.PostbackTemplateAction" (PostbackTemplateAction.MarshalJSON p)

/-- Function `NewURITemplateAction`: the struct whose address it returns. -/
def NewURITemplateAction (label uri : GoString) : URITemplateAction :=
  { Label := label, URI := uri }

/-- Function `NewMessageTemplateAction`: the struct whose address it
returns. -/
def NewMessageTemplateAction (label text : GoString) : MessageTemplateAction :=
  { Label := label, Text := text }

/-- Function `NewPostbackTemplateAction`: the struct whose address it
returns. -/
def NewPostbackTemplateAction (label data text : GoString) : PostbackTemplateAction :=
  { Label := label, Data := data, Text := text }

/-! ## `template.go`: templates -/

/-- Type `ButtonsTemplate`. -/
structure ButtonsTemplate where
  ThumbnailImageURL : GoString
  Title : GoString
  Text : GoString
  Actions : Slice TemplateAction

/-- Type `ConfirmTemplate`. -/
structure ConfirmTemplate where
  Text : GoString
  Actions : Slice TemplateAction

/-- Type `CarouselColumn`. -/
structure CarouselColumn where
  ThumbnailImageURL : GoString
  Title : GoString
  Text : GoString
  Actions : Slice TemplateAction

/-- Type `CarouselTemplate`; a column is a pointer, `none` being nil. -/
structure CarouselTemplate where
  Columns : Slice (Option CarouselColumn)

/-- Method `(*ButtonsTemplate).MarshalJSON`. -/
def ButtonsTemplate.MarshalJSON (t : ButtonsTemplate) : Except MarshalError JSON :=
  marshalStruct [
    stringField "type" false TemplateTypeButtons,
    stringField "thumbnailImageUrl" false t.ThumbnailImageURL,
    stringField "title" true t.Title,
    stringField "text" false t.Text,
    sliceField "actions" false marshalTemplateAction t.Actions]

/-- Method `(*ConfirmTemplate).MarshalJSON`. -/
def ConfirmTemplate.MarshalJSON (t : ConfirmTemplate) : Except MarshalError JSON :=
  marshalStruct [
    stringField "type" false TemplateTypeConfirm,
    stringField "text" false t.Text,
    sliceField "actions" false marshalTemplateAction t.Actions]

/-- The encoding of a `CarouselColumn`, which has no `MarshalJSON` of its own:
the struct encoder driven by the `json` tags of its fields. -/
def marshalCarouselColumn (c : CarouselColumn) : Except MarshalError JSON :=
  marshalStruct [
    stringField "thumbnailImageUrl" false c.ThumbnailImageURL,
    stringField "title" true c.Title,
    stringField "text" false c.Text,
    sliceField "actions" false marshalTemplateAction c.Actions]

/-- Method `(*CarouselTemplate).MarshalJSON`. -/
def CarouselTemplate.MarshalJSON (t : CarouselTemplate) : Except MarshalError JSON :=
  marshalStruct [
    stringField "type" false TemplateTypeCarousel,
    sliceField "columns" false (marshalPtr marshalCarouselColumn) t.Columns]

/-- Function `NewConfirmTemplate`. -/
def NewConfirmTemplate (text : GoString) (left right : TemplateAction) : ConfirmTemplate :=
  { Text := text, Actions := .elems [left, right] }

/-- Function `NewButtonsTemplate`; `actions` is the slice bound to the variadic
parameter. -/
def NewButtonsTemplate (thumbnailImageURL title text : GoString)
    (actions : Slice TemplateAction) : ButtonsTemplate :=
  { ThumbnailImageURL := thumbnailImageURL, Title := title, Text := text, Actions := actions }

/-- Function `NewCarouselTemplate`; `columns` is the slice bound to the
variadic parameter. -/
def NewCarouselTemplate (columns : Slice (Option CarouselColumn)) : CarouselTemplate :=
  { Columns := columns }

/-- Function `NewCarouselColumn`; `actions` is the slice bound to the variadic
parameter. -/
def NewCarouselColumn (thumbnailImageURL title text : GoString)
    (actions : Slice TemplateAction) : CarouselColumn :=
  { ThumbnailImageURL := thumbnailImageURL, Title := title, Text := text, Actions := actions }
/-! ## The HTTP client: `GetProfile`

Only `linebot/get_profile_test.go` is available for this part; the client
itself is described by the specification ("build request, attach auth header,
decode JSON or typed error") and by what the test expects of it. -/

/-- Type `ProfileResponse`, with the fields the test compares. -/
structure ProfileResponse where
  UserID : String
  DisplayName : String
  PicutureURL : String
  StatusMessage : String

/-- Modelled from the spec: the decoded error document carried by a typed API
error; type `ErrorResponse` is missing from the sources. -/
structure ErrorResponse where
  Message : String

/-- Type `APIError`: the test builds it from the status code alone, the decoded
error response being absent. -/
structure APIError where
  Code : Nat
  Response : Option ErrorResponse

/-- Modelled from the spec: the errors `Do` can return; the client code is
missing. A typed API error, a failure to decode the body of a successful
response, or an error of the HTTP round trip (which carries a cancelled
context's error through). -/
inductive Error where
  | api (e : APIError) : Error
  | decode (body : String) : Error
  | transport (msg : String) : Error

/-- Modelled from the spec: an outbound HTTP request as the test's server
observes it: method, URL path, headers and body; the request type is missing
from the sources. -/
structure Request where
  Method : String
  Path : String
  Header : List (String × String)
  Body : String

/-- Modelled from the spec: an HTTP response as the test's server writes it:
status code and body. -/
structure Response where
  StatusCode : Nat
  Body : String

/-- Modelled from the spec: what the client takes from outside the sources at
hand: the constant `APIEndpointGetProfile` (a format string), `fmt.Sprintf`
with one argument, the JSON parser of `encoding/json`, and the HTTP round trip
to the server. -/
structure Env where
  APIEndpointGetProfile : String
  Sprintf : String → String → String
  parseJSON : String → Option JSON
  roundTrip : Request → Except Error Response

/-- Modelled from the spec: type `Client`, missing from the sources; it holds
the auth header it attaches to every request. -/
structure Client where
  authHeader : String × String

/-- Modelled from the spec: type `GetProfileCall`, the value returned by
`GetProfile`. -/
structure GetProfileCall where
  c : Client
  userID : String

/-- Modelled from the spec: method `Client.GetProfile`, missing from the
sources. -/
def Client.GetProfile (client : Client) (userID : String) : GetProfileCall :=
  { c := client, userID := userID }

/-- Modelled from the spec: the request builder of the HTTP helper ("build
request, attach auth header"), missing from the sources; the test's server
expects method GET, the path `fmt.Sprintf(APIEndpointGetProfile, userID)` and
an empty body. -/
def GetProfileCall.request (env : Env) (call : GetProfileCall) : Request :=
  { Method := "GET",
    Path := env.Sprintf env.APIEndpointGetProfile call.userID,
    Header := [call.c.authHeader],
    Body := "" }

/-- Modelled from the spec: decoding one string field of a response struct
from a JSON object, missing from the sources: an absent or null member leaves
the empty string, a string member sets it, any other value is an error. -/
def decodeStringField (j : JSON) (key : String) : Option String :=
  match j.member? key with
  | none => some ""
  | some .null => some ""
  | some (.str s) => some s
  | some _ => none

/-- Modelled from the spec: decoding a JSON document into a `ProfileResponse`
("decodes JSON responses into typed results"), missing from the sources; the
member names are those of the test's response body. -/
def unmarshalProfileResponse (j : JSON) : Option ProfileResponse :=
  match j with
  | .obj _ =>
    match decodeStringField j "userId", decodeStringField j "displayName",
      decodeStringField j "pictureUrl", decodeStringField j "statusMessage" with
    | some u, some d, some p, some s =>
      some { UserID := u, DisplayName := d, PicutureURL := p, StatusMessage := s }
    | _, _, _, _ => none
  | _ => none

/-- Modelled from the spec: decoding a JSON document into an `ErrorResponse`,
missing from the sources. -/
def unmarshalErrorResponse (j : JSON) : Option ErrorResponse :=
  match j with
  | .obj _ =>
    match decodeStringField j "message" with
    | some m => some { Message := m }
    | none => none
  | _ => none

/-- Modelled from the spec: the error document of a response body, if the body
is one. -/
def decodeErrorResponse (env : Env) (body : String) : Option ErrorResponse :=
  match env.parseJSON body with
  | some j => unmarshalErrorResponse j
  | none => none

/-- Modelled from the spec: the response check of the HTTP helper ("decode
JSON or typed error"), missing from the sources: a status other than 200 is a
typed API error carrying the status code and the error document of the body
when there is one. -/
def checkResponse (env : Env) (res : Response) : Option APIError :=
  if res.StatusCode = 200 then none
  else some { Code := res.StatusCode, Response := decodeErrorResponse env res.Body }

/-- Modelled from the spec: decoding the response of the profile endpoint into
a typed result or a typed error, missing from the sources. -/
def decodeToProfileResponse (env : Env) (res : Response) : Except Error ProfileResponse :=
  match checkResponse env res with
  | some e => .error (.api e)
  | none =>
    match env.parseJSON res.Body with
    | none => .error (.decode res.Body)
    | some j =>
      match unmarshalProfileResponse j with
      | none => .error (.decode res.Body)
      | some p => .ok p

/-- What one `Do` call did: the requests it issued, in order, and what it
returned (the response, or the error with a nil response). -/
structure DoResult where
  issued : List Request
  result : Except Error ProfileResponse

/-- Modelled from the spec: method `GetProfileCall.Do`, missing from the
sources: one request to the profile endpoint, whose response is decoded; an
error of the round trip is returned as it is. -/
def GetProfileCall.Do (env : Env) (call : GetProfileCall) : DoResult :=
  let req := call.request env
  { issued := [req],
    result :=
      match env.roundTrip req with
      | .error e => .error e
      | .ok res => decodeToProfileResponse env res }

/-! ### The two cases of `TestGetProfile` -/

/-- The user ID of both cases of `TestGetProfile`. -/
def testUserID : String := "U0047556f2e40dba2456887320ba7c76d"

/-- The response body of the first case of `TestGetProfile`. -/
def testProfileBody : String :=
  "\x7b\"userId\":\"U0047556f2e40dba2456887320ba7c76d\",\"displayName\":\"BOT API\",\"pictureUrl\":\"http://dl.profile.line.naver.jp/abcdefghijklmn\",\"statusMessage\":\"Hello, LINE!\"\x7d"

/-- The JSON document that `testProfileBody` spells. -/
def testProfileDocument : JSON :=
  .obj [("userId", .str "U0047556f2e40dba2456887320ba7c76d"),
    ("displayName", .str "BOT API"),
    ("pictureUrl", .str "http://dl.profile.line.naver.jp/abcdefghijklmn"),
    ("statusMessage", .str "Hello, LINE!")]

/-- The response body of the second case of `TestGetProfile`. -/
def testErrorBody : String := "500 Internal server error"

/-- Substitution of the argument for the first `%s` of a format. -/
def substVerb : List Char → String → List Char
  | [], _ => []
  | '%' :: 's' :: rest, arg => arg.data ++ rest
  | c :: rest, arg => c :: substVerb rest arg

/-- The surroundings of `TestGetProfile`: a server that answers every request
with the status code and body of the current test case, and a JSON parser that
reads the one JSON body of the test and rejects what is not JSON. The endpoint
format stands in for the constant, whose value is not in the sources. -/
def testEnv (code : Nat) (body : String) : Env :=
  { APIEndpointGetProfile := "/profile/%s",
    Sprintf := fun format arg => String.mk (substVerb format.data arg),
    parseJSON := fun s => if s = testProfileBody then some testProfileDocument else none,
    roundTrip := fun _ => .ok { StatusCode := code, Body := body } }

/-- The client of `TestGetProfile`. -/
def testClient : Client :=
  { authHeader := ("Authorization", "Bearer testtoken") }

/-! ## The webhook handler

Package `httphandler` is not among the sources; the example server builds the
handler from the channel secret and registers a message callback on it. -/

/-- Modelled from the spec: an inbound webhook request: the signature header
and the body; the handler's code is missing from the sources. -/
structure WebhookRequest where
  Signature : String
  Body : String

/-- Modelled from the spec: what the webhook handler takes from outside: the
HMAC-SHA256 of a body under a key, in the representation of the signature
header, and the decoder of the JSON event envelope. -/
structure WebhookEnv (ε : Type) where
  hmacSHA256 : String → String → String
  decodeEvents : String → List ε

/-- Modelled from the spec: the handler built by `httphandler.New` from the
channel secret, with the event kinds for which a callback is registered. -/
structure WebhookHandler (ε : Type) where
  channelSecret : String
  registered : ε → Bool

/-- Modelled from the spec: signature validation, "a single HMAC comparison"
of the signature header with the HMAC-SHA256 of the body under the channel
secret. -/
def validateSignature {ε : Type} (env : WebhookEnv ε) (channelSecret : String)
    (req : WebhookRequest) : Bool :=
  req.Signature == env.hmacSHA256 channelSecret req.Body

/-- What serving one webhook request did: whether it was accepted, and the
events handed to registered callbacks, in order. -/
structure ServeResult (ε : Type) where
  accepted : Bool
  dispatched : List ε

/-- Modelled from the spec: the webhook handler's `ServeHTTP`, missing from the
sources: it "verifies an HMAC signature header against a shared secret,
decodes a JSON event envelope into typed events, and invokes caller-registered
handlers per event/message type". -/
def WebhookHandler.ServeHTTP {ε : Type} (env : WebhookEnv ε) (h : WebhookHandler ε)
    (req : WebhookRequest) : ServeResult ε :=
  if validateSignature env h.channelSecret req then
    { accepted := true, dispatched := (env.decodeEvents req.Body).filter h.registered }
  else
    { accepted := false, dispatched := [] }

/-! ## Further notions used by the claims on `template.go` -/

/-- The object `j` without its members named `key`; a document that is not an
object is left as it is. -/
def JSON.remove (j : JSON) (key : String) : JSON :=
  match j with
  | .obj members => .obj (members.filter (fun m => m.1 != key))
  | other => other

/-- The method call `a.MarshalJSON()` on a value of interface type
`TemplateAction`: it runs the method on the pointer the value holds; the nil
interface has no method to run (`none`). -/
def TemplateAction.MarshalJSON : TemplateAction → Option (Except MarshalError JSON)
  | .nil => none
  | .uri p => some (URITemplateAction.MarshalJSON p)
  | .message p => some (MessageTemplateAction.MarshalJSON p)
  | .postback p => some (PostbackTemplateAction.MarshalJSON p)

/-- Whether an action is a non-nil interface value that holds a nil pointer. -/
def TemplateAction.isTypedNil : TemplateAction → Bool
  | .uri none => true
  | .message none => true
  | .postback none => true
  | _ => false

/-- Whether no action of the slice is a nil pointer held by a non-nil
interface value. -/
def noTypedNil (s : Slice TemplateAction) : Bool :=
  s.toList.all (fun a => !a.isTypedNil)

/-- Whether no action of any non-nil column of the slice is a nil pointer held
by a non-nil interface value. -/
def columnsNoTypedNil (s : Slice (Option CarouselColumn)) : Bool :=
  s.toList.all (fun c =>
    match c with
    | none => true
    | some col => noTypedNil col.Actions)

/-- Whether every string field of the action is valid UTF-8. -/
def TemplateAction.StringsAreUTF8 : TemplateAction → Prop
  | .uri (some a) => IsUTF8 a.Label ∧ IsUTF8 a.URI
  | .message (some a) => IsUTF8 a.Label ∧ IsUTF8 a.Text
  | .postback (some a) => IsUTF8 a.Label ∧ IsUTF8 a.Data ∧ IsUTF8 a.Text
  | _ => True

/-! ## The example server `examples/echo_bot_handler`

The callback registered in `init` is in the sources; the types of package
`linebot` it uses (`Event`, `EventSource`, `TextMessage`, `PushMessage`) are
not, and are modelled by the fields and calls the callback uses. -/

/-- Modelled from the spec: type `linebot.TextMessage`, whose declaration is
missing; the callback reads its field `Text`. -/
structure TextMessage where
  Text : String

/-- Modelled from the spec: a value of the interface type `linebot.Message`,
whose declaration is missing: the nil interface, a pointer to a
`TextMessage`, or a message of another type, of which only the type name is
kept. -/
inductive Message where
  | nil : Message
  | text (m : TextMessage) : Message
  | other (typ : String) : Message

/-- Modelled from the spec: type `linebot.EventSource`, whose declaration is
missing; the callback reads its fields `Type` (here `Typ`, the source's name
being reserved) and `UserID`. -/
structure EventSource where
  Typ : String
  UserID : String

/-- Modelled from the spec: type `linebot.Event`, whose declaration is
missing; the callback reads its fields `Source` and `Message`. -/
structure Event where
  Source : EventSource
  Message : Message

/-- Modelled from the spec: function `linebot.NewTextMessage`, missing from the
sources: the text message with the given text. -/
def NewTextMessage (content : String) : TextMessage :=
  { Text := content }

/-- One call `bot.PushMessage(to, messages...).Do()`: the addressee and the
messages pushed. -/
structure PushMessageCall where
  To : String
  messages : List Message

/-- What the callback takes from package `linebot`: the constant
`EventSourceTypeUser`, whose value is not in the sources, and the outcome of
a push (`none` when `Do` returns a nil error). -/
structure EchoEnv where
  EventSourceTypeUser : String
  pushDo : PushMessageCall → Option Error

/-- What one run of the callback did: the pushes it issued and the errors it
logged, in order. -/
structure HandlerEffects where
  pushed : List PushMessageCall
  logged : List Error

/-- The callback that `init` of `server_appengine.go` registers with
`handler.HandleMessage`. -/
def handleMessageCallback (env : EchoEnv) (event : Event) : HandlerEffects :=
  match event.Message with
  | .text message =>
    if event.Source.Typ = env.EventSourceTypeUser then
      let call : PushMessageCall :=
        { To := event.Source.UserID, messages := [.text (NewTextMessage message.Text)] }
      match env.pushDo call with
      | some err => { pushed := [call], logged := [err] }
      | none => { pushed := [call], logged := [] }
    else { pushed := [], logged := [] }
  | _ => { pushed := [], logged := [] }

/-! ### Sample values -/

/-- Three sample actions, one of each type. -/
def sampleActions : List TemplateAction :=
  [.uri (some (NewURITemplateAction (utf8 "View") (utf8 "https://example.com/item/1"))),
    .postback (some (NewPostbackTemplateAction (utf8 "Buy") (utf8 "action=buy&item=1") (utf8 ""))),
    .message (some (NewMessageTemplateAction (utf8 "Ask") (utf8 "Tell me more")))]

/-- A sample carousel column carrying the sample actions. -/
def sampleColumn : CarouselColumn :=
  NewCarouselColumn (utf8 "https://example.com/item/1.png") (utf8 "") (utf8 "Item 1")
    (variadic sampleActions)

/-- A sample buttons template carrying the sample actions. -/
def sampleButtons : ButtonsTemplate :=
  NewButtonsTemplate (utf8 "https://example.com/menu.png") (utf8 "Menu") (utf8 "Pick one")
    (variadic sampleActions)

/-- A sample confirm template. -/
def sampleConfirm : ConfirmTemplate :=
  NewConfirmTemplate (utf8 "Are you sure?")
    (.message (some (NewMessageTemplateAction (utf8 "Yes") (utf8 "yes"))))
    (.message (some (NewMessageTemplateAction (utf8 "No") (utf8 "no"))))

/-! ## Lemmas on the coercion to valid UTF-8 -/

theorem char_toNat_valid (c : Char) :
    c.toNat < 0xD800 ∨ (0xDFFF < c.toNat ∧ c.toNat < 0x110000) := c.valid

theorem decodeRune_encodeScalar (v : Nat)
    (hv : v < 0xD800 ∨ (0xDFFF < v ∧ v < 0x110000)) (rest : GoString) :
    decodeRune (encodeScalar v ++ rest) = (Char.ofNat v, (encodeScalar v).length) := by
  unfold encodeScalar
  by_cases h1 : v < 0x80
  · simp [h1, decodeRune]
  · by_cases h2 : v < 0x800
    · have a1 : ¬ (0xC0 + v / 64 < 0x80) := by omega
      have a2 : 0xC2 ≤ 0xC0 + v / 64 ∧ 0xC0 + v / 64 ≤ 0xDF := by omega
      have a3 : isCont (0x80 + v % 64) = true := by simp [isCont]; omega
      simp [h1, h2, decodeRune, a1, a2, a3]
      congr 1
      omega
    · by_cases h3 : v < 0x10000
      · have a1 : ¬ (0xE0 + v / 4096 < 0x80) := by omega
        have a2 : ¬ (0xC2 ≤ 0xE0 + v / 4096 ∧ 0xE0 + v / 4096 ≤ 0xDF) := by omega
        have a3 : 0xE0 ≤ 0xE0 + v / 4096 ∧ 0xE0 + v / 4096 ≤ 0xEF := by omega
        have a4 : acceptLo (0xE0 + v / 4096) ≤ 0x80 + v / 64 % 64 := by
          unfold acceptLo; split_ifs <;> omega
        have a5 : 0x80 + v / 64 % 64 ≤ acceptHi (0xE0 + v / 4096) := by
          unfold acceptHi; split_ifs <;> omega
        have a6 : isCont (0x80 + v % 64) = true := by simp [isCont]; omega
        simp [h1, h2, h3, decodeRune, a1, a2, a3, a4, a5, a6]
        congr 1
        omega
      · have e : (0xF0 + v / 262144) % 8 * 262144 + (0x80 + v / 4096 % 64) % 64 * 4096
            + (0x80 + v / 64 % 64) % 64 * 64 + (0x80 + v % 64) % 64 = v := by omega
        have a1 : ¬ (0xF0 + v / 262144 < 0x80) := by omega
        have a2 : ¬ (0xC2 ≤ 0xF0 + v / 262144 ∧ 0xF0 + v / 262144 ≤ 0xDF) := by omega
        have a3 : ¬ (0xE0 ≤ 0xF0 + v / 262144 ∧ 0xF0 + v / 262144 ≤ 0xEF) := by omega
        have a3b : 0xF0 ≤ 0xF0 + v / 262144 ∧ 0xF0 + v / 262144 ≤ 0xF4 := by omega
        have a4 : acceptLo (0xF0 + v / 262144) ≤ 0x80 + v / 4096 % 64 := by
          unfold acceptLo; split_ifs <;> omega
        have a5 : 0x80 + v / 4096 % 64 ≤ acceptHi (0xF0 + v / 262144) := by
          unfold acceptHi; split_ifs <;> omega
        have a6 : isCont (0x80 + v / 64 % 64) = true := by simp [isCont]; omega
        have a7 : isCont (0x80 + v % 64) = true := by simp [isCont]; omega
        have a8 : acceptLo (0xF0 + v / 262144) ≤ 0x80 + v / 4096 % 64
            ∧ 0x80 + v / 4096 % 64 ≤ acceptHi (0xF0 + v / 262144)
            ∧ isCont (0x80 + v / 64 % 64) = true ∧ isCont (0x80 + v % 64) = true :=
          ⟨a4, a5, a6, a7⟩
        simp only [if_neg h1, if_neg h2, if_neg h3, List.cons_append, List.nil_append,
          decodeRune, if_neg a1, if_neg a2, if_neg a3, if_pos a3b, if_pos a8, List.length_cons,
          List.length_nil, e]

theorem decodeRune_encodeRune (c : Char) (rest : GoString) :
    decodeRune (encodeRune c ++ rest) = (c, (encodeRune c).length) := by
  have h := decodeRune_encodeScalar c.toNat (char_toNat_valid c) rest
  rw [Char.ofNat_toNat] at h
  exact h

theorem decodeFrom_skip (pre rest : GoString) :
    decodeFrom (pre ++ rest) pre.length = decodeFrom rest 0 := by
  induction pre with
  | nil => rfl
  | cons b bs ih => simpa [decodeFrom] using ih

theorem encodeScalar_ne_nil (v : Nat) : encodeScalar v ≠ [] := by
  unfold encodeScalar
  split_ifs <;> simp

theorem decodeFrom_encodeRune (c : Char) (rest : GoString) :
    decodeFrom (encodeRune c ++ rest) 0 = c :: decodeFrom rest 0 := by
  have h := decodeRune_encodeRune c rest
  cases he : encodeRune c with
  | nil => exact absurd he (encodeScalar_ne_nil _)
  | cons b tl =>
    rw [he] at h
    simp only [List.cons_append] at h ⊢
    rw [decodeFrom, h]
    simp only [List.length_cons, Nat.add_sub_cancel]
    rw [decodeFrom_skip]

theorem decodeFrom_utf8Chars (cs : List Char) : decodeFrom (utf8Chars cs) 0 = cs := by
  induction cs with
  | nil => rfl
  | cons c cs ih => rw [utf8Chars, decodeFrom_encodeRune, ih]

theorem toValidUTF8_utf8 (s : String) : toValidUTF8 (utf8 s) = s := by
  simp [toValidUTF8, utf8, decodeFrom_utf8Chars]

theorem toValidUTF8_injective_on_utf8 {a b : GoString} (ha : IsUTF8 a) (hb : IsUTF8 b)
    (h : toValidUTF8 a = toValidUTF8 b) : a = b := by
  obtain ⟨u, rfl⟩ := ha
  obtain ⟨w, rfl⟩ := hb
  rw [toValidUTF8_utf8, toValidUTF8_utf8] at h
  rw [h]

theorem gostring_length_eq_zero_iff (s : GoString) : (s.length == 0) = true ↔ s = [] := by
  cases s <;> simp

theorem gostring_length_ne_zero {s : GoString} (h : s ≠ []) : (s.length == 0) = false := by
  cases s with
  | nil => exact absurd rfl h
  | cons b bs => simp

/-! ## Shared lemmas on the encoder -/

theorem uri_marshal (a : URITemplateAction) :
    URITemplateAction.MarshalJSON (some a)
      = .ok (.obj [("type", .str "uri"), ("label", .str (toValidUTF8 a.Label)),
          ("uri", .str (toValidUTF8 a.URI))]) := by
  simp [URITemplateAction.MarshalJSON, marshalStruct, marshalFields, stringField,
    marshalString, TemplateActionTypeURI, toValidUTF8_utf8]

theorem message_marshal (a : MessageTemplateAction) :
    MessageTemplateAction.MarshalJSON (some a)
      = .ok (.obj [("type", .str "message"), ("label", .str (toValidUTF8 a.Label)),
          ("text", .str (toValidUTF8 a.Text))]) := by
  simp [MessageTemplateAction.MarshalJSON, marshalStruct, marshalFields, stringField,
    marshalString, TemplateActionTypeMessage, toValidUTF8_utf8]

theorem postback_marshal (a : PostbackTemplateAction) :
    PostbackTemplateAction.MarshalJSON (some a) = .ok (.obj (
      if a.Text = [] then
        [("type", .str "postback"), ("label", .str (toValidUTF8 a.Label)),
          ("data", .str (toValidUTF8 a.Data))]
      else
        [("type", .str "postback"), ("label", .str (toValidUTF8 a.Label)),
          ("data", .str (toValidUTF8 a.Data)), ("text", .str (toValidUTF8 a.Text))])) := by
  by_cases h : a.Text = []
  · have h0 : (a.Text.length == 0) = true := (gostring_length_eq_zero_iff _).mpr h
    simp [PostbackTemplateAction.MarshalJSON, marshalStruct, marshalFields, stringField,
      marshalString, h0, h, TemplateActionTypePostback, toValidUTF8_utf8]
  · have h0 : (a.Text.length == 0) = false := gostring_length_ne_zero h
    simp [PostbackTemplateAction.MarshalJSON, marshalStruct, marshalFields, stringField,
      marshalString, h0, h, TemplateActionTypePostback, toValidUTF8_utf8]

theorem marshalTemplateAction_ok (a : TemplateAction) (h : a.isTypedNil = false) :
    ∃ j, marshalTemplateAction a = .ok j := by
  cases a with
  | nil => exact ⟨_, rfl⟩
  | uri p =>
    cases p with
    | none => simp [TemplateAction.isTypedNil] at h
    | some a => exact ⟨_, by rw [marshalTemplateAction, uri_marshal]; rfl⟩
  | message p =>
    cases p with
    | none => simp [TemplateAction.isTypedNil] at h
    | some a => exact ⟨_, by rw [marshalTemplateAction, message_marshal]; rfl⟩
  | postback p =>
    cases p with
    | none => simp [TemplateAction.isTypedNil] at h
    | some a => exact ⟨_, by rw [marshalTemplateAction, postback_marshal]; rfl⟩

theorem marshalTemplateAction_typedNil (a : TemplateAction) (h : a.isTypedNil = true) :
    marshalTemplateAction a = .error .nilPointerDereference := by
  cases a with
  | nil => simp [TemplateAction.isTypedNil] at h
  | uri p => cases p <;> first | rfl | simp [TemplateAction.isTypedNil] at h
  | message p => cases p <;> first | rfl | simp [TemplateAction.isTypedNil] at h
  | postback p => cases p <;> first | rfl | simp [TemplateAction.isTypedNil] at h

theorem marshalElems_ok_of_forall {α : Type} (enc : α → Except MarshalError JSON)
    (xs : List α) (h : ∀ x ∈ xs, ∃ j, enc x = .ok j) :
    ∃ js, marshalElems enc xs = .ok js ∧ js.length = xs.length := by
  induction xs with
  | nil => exact ⟨[], rfl, rfl⟩
  | cons x xs ih =>
    obtain ⟨j, hj⟩ := h x (by simp)
    obtain ⟨js, hjs, hlen⟩ := ih (fun y hy => h y (by simp [hy]))
    exact ⟨j :: js, by simp [marshalElems, hj, hjs], by simp [hlen]⟩

theorem marshalSlice_ok_of_forall {α : Type} (enc : α → Except MarshalError JSON)
    (s : Slice α) (h : ∀ x ∈ s.toList, ∃ j, enc x = .ok j) :
    ∃ j, marshalSlice enc s = .ok j := by
  cases s with
  | nil => exact ⟨.null, rfl⟩
  | elems xs =>
    obtain ⟨js, hjs, _⟩ := marshalElems_ok_of_forall enc xs h
    exact ⟨.arr js, by simp [marshalSlice, hjs]⟩

theorem noTypedNil_mem {s : Slice TemplateAction} (h : noTypedNil s = true)
    {a : TemplateAction} (ha : a ∈ s.toList) : a.isTypedNil = false := by
  have h2 := List.all_eq_true.mp h a ha
  simpa using h2

theorem marshalActions_ok (s : Slice TemplateAction) (h : noTypedNil s = true) :
    ∃ j, marshalSlice marshalTemplateAction s = .ok j :=
  marshalSlice_ok_of_forall _ s (fun a ha => marshalTemplateAction_ok a (noTypedNil_mem h ha))

theorem buttons_marshal (b : ButtonsTemplate) (ja : JSON)
    (h : marshalSlice marshalTemplateAction b.Actions = .ok ja) :
    b.MarshalJSON = .ok (.obj (
      if b.Title = [] then
        [("type", .str "buttons"),
          ("thumbnailImageUrl", .str (toValidUTF8 b.ThumbnailImageURL)),
          ("text", .str (toValidUTF8 b.Text)), ("actions", ja)]
      else
        [("type", .str "buttons"),
          ("thumbnailImageUrl", .str (toValidUTF8 b.ThumbnailImageURL)),
          ("title", .str (toValidUTF8 b.Title)), ("text", .str (toValidUTF8 b.Text)),
          ("actions", ja)])) := by
  by_cases ht : b.Title = []
  · have h0 : (b.Title.length == 0) = true := (gostring_length_eq_zero_iff _).mpr ht
    simp [ButtonsTemplate.MarshalJSON, marshalStruct, marshalFields, stringField, sliceField,
      marshalString, h0, ht, h, TemplateTypeButtons, toValidUTF8_utf8]
  · have h0 : (b.Title.length == 0) = false := gostring_length_ne_zero ht
    simp [ButtonsTemplate.MarshalJSON, marshalStruct, marshalFields, stringField, sliceField,
      marshalString, h0, ht, h, TemplateTypeButtons, toValidUTF8_utf8]

theorem buttons_marshal_error (b : ButtonsTemplate) (e : MarshalError)
    (h : marshalSlice marshalTemplateAction b.Actions = .error e) :
    b.MarshalJSON = .error e := by
  by_cases ht : b.Title = []
  · have h0 : (b.Title.length == 0) = true := (gostring_length_eq_zero_iff _).mpr ht
    simp [ButtonsTemplate.MarshalJSON, marshalStruct, marshalFields, stringField, sliceField,
      marshalString, h0, h]
  · have h0 : (b.Title.length == 0) = false := gostring_length_ne_zero ht
    simp [ButtonsTemplate.MarshalJSON, marshalStruct, marshalFields, stringField, sliceField,
      marshalString, h0, h]

theorem confirm_marshal (c : ConfirmTemplate) (ja : JSON)
    (h : marshalSlice marshalTemplateAction c.Actions = .ok ja) :
    c.MarshalJSON
      = .ok (.obj [("type", .str "confirm"), ("text", .str (toValidUTF8 c.Text)),
          ("actions", ja)]) := by
  simp [ConfirmTemplate.MarshalJSON, marshalStruct, marshalFields, stringField, sliceField,
    marshalString, h, TemplateTypeConfirm, toValidUTF8_utf8]

theorem column_marshal (c : CarouselColumn) (ja : JSON)
    (h : marshalSlice marshalTemplateAction c.Actions = .ok ja) :
    marshalCarouselColumn c = .ok (.obj (
      if c.Title = [] then
        [("thumbnailImageUrl", .str (toValidUTF8 c.ThumbnailImageURL)),
          ("text", .str (toValidUTF8 c.Text)), ("actions", ja)]
      else
        [("thumbnailImageUrl", .str (toValidUTF8 c.ThumbnailImageURL)),
          ("title", .str (toValidUTF8 c.Title)), ("text", .str (toValidUTF8 c.Text)),
          ("actions", ja)])) := by
  by_cases ht : c.Title = []
  · have h0 : (c.Title.length == 0) = true := (gostring_length_eq_zero_iff _).mpr ht
    simp [marshalCarouselColumn, marshalStruct, marshalFields, stringField, sliceField,
      marshalString, h0, ht, h]
  · have h0 : (c.Title.length == 0) = false := gostring_length_ne_zero ht
    simp [marshalCarouselColumn, marshalStruct, marshalFields, stringField, sliceField,
      marshalString, h0, ht, h]

theorem column_marshal_error (c : CarouselColumn) (e : MarshalError)
    (h : marshalSlice marshalTemplateAction c.Actions = .error e) :
    marshalCarouselColumn c = .error e := by
  by_cases ht : c.Title = []
  · have h0 : (c.Title.length == 0) = true := (gostring_length_eq_zero_iff _).mpr ht
    simp [marshalCarouselColumn, marshalStruct, marshalFields, stringField, sliceField,
      marshalString, h0, h]
  · have h0 : (c.Title.length == 0) = false := gostring_length_ne_zero ht
    simp [marshalCarouselColumn, marshalStruct, marshalFields, stringField, sliceField,
      marshalString, h0, h]

theorem marshalColumnPtr_ok (c : Option CarouselColumn)
    (h : ∀ col, c = some col → noTypedNil col.Actions = true) :
    ∃ j, marshalPtr marshalCarouselColumn c = .ok j := by
  cases c with
  | none => exact ⟨.null, rfl⟩
  | some c =>
    obtain ⟨ja, hja⟩ := marshalActions_ok c.Actions (h c rfl)
    exact ⟨_, by rw [marshalPtr, column_marshal c ja hja]⟩

theorem columnsNoTypedNil_mem {s : Slice (Option CarouselColumn)}
    (h : columnsNoTypedNil s = true) {c : Option CarouselColumn} (hc : c ∈ s.toList)
    (col : CarouselColumn) (hcol : c = some col) : noTypedNil col.Actions = true := by
  have h2 := List.all_eq_true.mp h c hc
  subst hcol
  simpa using h2

theorem marshalColumns_ok (s : Slice (Option CarouselColumn))
    (h : columnsNoTypedNil s = true) :
    ∃ j, marshalSlice (marshalPtr marshalCarouselColumn) s = .ok j :=
  marshalSlice_ok_of_forall _ s
    (fun c hc => marshalColumnPtr_ok c (fun col hcol => columnsNoTypedNil_mem h hc col hcol))

theorem carousel_marshal (t : CarouselTemplate) (jc : JSON)
    (h : marshalSlice (marshalPtr marshalCarouselColumn) t.Columns = .ok jc) :
    t.MarshalJSON = .ok (.obj [("type", .str "carousel"), ("columns", jc)]) := by
  simp [CarouselTemplate.MarshalJSON, marshalStruct, marshalFields, stringField, sliceField,
    marshalString, h, TemplateTypeCarousel, toValidUTF8_utf8]

/-! ## Claims on `template.go` -/

/-- C1 fails as stated: a template whose action list holds a nil pointer inside
a non-nil interface value does not marshal; `MarshalJSON` of the action reads
a field through the nil receiver and the call panics. -/
theorem C1_counterexample :
    (NewButtonsTemplate (utf8 "https://example.com/menu.png") (utf8 "Menu") (utf8 "Pick one")
        (variadic [.uri none])).MarshalJSON = .error .nilPointerDereference
    ∧ (NewConfirmTemplate (utf8 "Are you sure?") (.message none) .nil).MarshalJSON
        = .error .nilPointerDereference
    ∧ (NewCarouselTemplate (variadic [some (NewCarouselColumn (utf8 "") (utf8 "")
        (utf8 "Item 1") (variadic [.postback none]))])).MarshalJSON
        = .error .nilPointerDereference := by
  refine ⟨?_, ?_, ?_⟩
  · exact buttons_marshal_error _ _ rfl
  · simp [ConfirmTemplate.MarshalJSON, NewConfirmTemplate, marshalStruct, marshalFields,
      stringField, sliceField, marshalString, marshalSlice, marshalElems,
      marshalTemplateAction, marshalMarshaler, MessageTemplateAction.MarshalJSON]
  · have h : marshalPtr marshalCarouselColumn (some (NewCarouselColumn (utf8 "") (utf8 "")
        (utf8 "Item 1") (.elems [.postback none]))) = .error .nilPointerDereference :=
      column_marshal_error _ _ rfl
    simp [CarouselTemplate.MarshalJSON, NewCarouselTemplate, variadic, marshalStruct,
      marshalFields, stringField, sliceField, marshalString, marshalSlice, marshalElems, h]

/-- C1, amended: for every `ButtonsTemplate`, `ConfirmTemplate` and
`CarouselTemplate` value none of whose actions is a nil pointer held by a
non-nil interface value, `MarshalJSON` succeeds and yields a JSON object whose
`type` member is the string `buttons`, `confirm` and `carousel` respectively;
the three tags are pairwise distinct. -/
theorem C1_template_type_tags (b : ButtonsTemplate) (c : ConfirmTemplate)
    (t : CarouselTemplate)
    (hb : noTypedNil b.Actions = true) (hc : noTypedNil c.Actions = true)
    (ht : columnsNoTypedNil t.Columns = true) :
    (∃ ms, b.MarshalJSON = .ok (.obj ms)
        ∧ (JSON.obj ms).member? "type" = some (.str "buttons"))
    ∧ (∃ ms, c.MarshalJSON = .ok (.obj ms)
        ∧ (JSON.obj ms).member? "type" = some (.str "confirm"))
    ∧ (∃ ms, t.MarshalJSON = .ok (.obj ms)
        ∧ (JSON.obj ms).member? "type" = some (.str "carousel"))
    ∧ TemplateTypeButtons = utf8 "buttons" ∧ TemplateTypeConfirm = utf8 "confirm"
    ∧ TemplateTypeCarousel = utf8 "carousel"
    ∧ TemplateTypeButtons ≠ TemplateTypeConfirm
    ∧ TemplateTypeButtons ≠ TemplateTypeCarousel
    ∧ TemplateTypeConfirm ≠ TemplateTypeCarousel := by
  refine ⟨?_, ?_, ?_, rfl, rfl, rfl, by decide, by decide, by decide⟩
  · obtain ⟨ja, hja⟩ := marshalActions_ok b.Actions hb
    refine ⟨_, buttons_marshal b ja hja, ?_⟩
    by_cases h : b.Title = [] <;> simp [JSON.member?, List.lookup, h]
  · obtain ⟨ja, hja⟩ := marshalActions_ok c.Actions hc
    exact ⟨_, confirm_marshal c ja hja, by simp [JSON.member?, List.lookup]⟩
  · obtain ⟨jc, hjc⟩ := marshalColumns_ok t.Columns ht
    exact ⟨_, carousel_marshal t jc hjc, by simp [JSON.member?, List.lookup]⟩

/-- C1, amended, at the sample templates. -/
theorem C1_template_type_tags_witness :
    noTypedNil sampleButtons.Actions = true
    ∧ noTypedNil sampleConfirm.Actions = true
    ∧ columnsNoTypedNil (NewCarouselTemplate (variadic [some sampleColumn, none])).Columns = true
    ∧ (∃ ms, sampleButtons.MarshalJSON = .ok (.obj ms)
        ∧ (JSON.obj ms).member? "type" = some (.str "buttons"))
    ∧ (∃ ms, sampleConfirm.MarshalJSON = .ok (.obj ms)
        ∧ (JSON.obj ms).member? "type" = some (.str "confirm"))
    ∧ (∃ ms, (NewCarouselTemplate (variadic [some sampleColumn, none])).MarshalJSON
          = .ok (.obj ms)
        ∧ (JSON.obj ms).member? "type" = some (.str "carousel")) :=
  have h := C1_template_type_tags sampleButtons sampleConfirm
    (NewCarouselTemplate (variadic [some sampleColumn, none])) (by decide) (by decide)
    (by decide)
  ⟨by decide, by decide, by decide, h.1, h.2.1, h.2.2.1⟩

/-- C2 fails as stated: the label that is the single byte `0xFF` (not valid
UTF-8) is not written as it is; the `label` member is U+FFFD, the same as for
the different label `0xFE`, and its UTF-8 bytes are not the label's. -/
theorem C2_counterexample :
    URITemplateAction.MarshalJSON (some (NewURITemplateAction [0xFF] (utf8 "https://example.com")))
        = .ok (.obj [("type", .str "uri"), ("label", .str "\uFFFD"),
            ("uri", .str "https://example.com")])
    ∧ URITemplateAction.MarshalJSON (some (NewURITemplateAction [0xFE] (utf8 "https://example.com")))
        = .ok (.obj [("type", .str "uri"), ("label", .str "\uFFFD"),
            ("uri", .str "https://example.com")])
    ∧ utf8 "\uFFFD" = [0xEF, 0xBF, 0xBD]
    ∧ utf8 "\uFFFD" ≠ [0xFF] := by
  refine ⟨?_, ?_, by decide, by decide⟩
  · rw [uri_marshal]
    simp only [NewURITemplateAction, toValidUTF8_utf8]
    rfl
  · rw [uri_marshal]
    simp only [NewURITemplateAction, toValidUTF8_utf8]
    rfl

/-- C2, amended: `MarshalJSON` of `NewURITemplateAction(l, u)` is exactly the
object with the members `type`=`uri`, `label`, `uri`, in that order, and
`MarshalJSON` of `NewMessageTemplateAction(l, t)` exactly the object with the
members `type`=`message`, `label`, `text`, where `label`, `uri` and `text` are
l, u and t coerced to valid UTF-8 (each invalid byte written as U+FFFD); they
are l, u and t themselves when these are valid UTF-8. All three members are
there for every l, u and t, the empty string included. -/
theorem C2_uri_message_action_encoding (l u t : GoString) (ls us ts : String) :
    URITemplateAction.MarshalJSON (some (NewURITemplateAction l u))
        = .ok (.obj [("type", .str "uri"), ("label", .str (toValidUTF8 l)),
            ("uri", .str (toValidUTF8 u))])
    ∧ MessageTemplateAction.MarshalJSON (some (NewMessageTemplateAction l t))
        = .ok (.obj [("type", .str "message"), ("label", .str (toValidUTF8 l)),
            ("text", .str (toValidUTF8 t))])
    ∧ URITemplateAction.MarshalJSON (some (NewURITemplateAction (utf8 ls) (utf8 us)))
        = .ok (.obj [("type", .str "uri"), ("label", .str ls), ("uri", .str us)])
    ∧ MessageTemplateAction.MarshalJSON (some (NewMessageTemplateAction (utf8 ls) (utf8 ts)))
        = .ok (.obj [("type", .str "message"), ("label", .str ls), ("text", .str ts)])
    ∧ URITemplateAction.MarshalJSON (some (NewURITemplateAction [] []))
        = .ok (.obj [("type", .str "uri"), ("label", .str ""), ("uri", .str "")])
    ∧ MessageTemplateAction.MarshalJSON (some (NewMessageTemplateAction [] []))
        = .ok (.obj [("type", .str "message"), ("label", .str ""), ("text", .str "")]) := by
  refine ⟨uri_marshal _, message_marshal _, ?_, ?_, uri_marshal _, message_marshal _⟩
  · rw [uri_marshal]
    simp only [NewURITemplateAction, toValidUTF8_utf8]
  · rw [message_marshal]
    simp only [NewMessageTemplateAction, toValidUTF8_utf8]

/-- C3 fails as stated: called with no action (no column) arguments,
`NewButtonsTemplate` and `NewCarouselColumn` return an empty `Actions` list and
`NewCarouselTemplate` returns an empty `Columns` list. -/
theorem C3_counterexample :
    (NewButtonsTemplate (utf8 "https://example.com/menu.png") (utf8 "Menu") (utf8 "Pick one")
        (variadic [])).Actions.len = 0
    ∧ (NewCarouselColumn (utf8 "https://example.com/menu.png") (utf8 "Menu") (utf8 "Pick one")
        (variadic [])).Actions.len = 0
    ∧ (NewCarouselTemplate (variadic [])).Columns.len = 0
    ∧ (NewCarouselTemplate (variadic [some (NewCarouselColumn (utf8 "") (utf8 "")
        (utf8 "Pick one") (variadic []))])).Columns.toList
        = [some { ThumbnailImageURL := utf8 "", Title := utf8 "", Text := utf8 "Pick one",
                  Actions := .nil }] := by
  refine ⟨rfl, rfl, rfl, rfl⟩

/-- C3, amended: `NewConfirmTemplate` always yields exactly two actions, while
`NewButtonsTemplate`, `NewCarouselColumn` and `NewCarouselTemplate` store the
slice they are given unchanged, so `Actions` (`Columns`) has exactly as many
entries as arguments were passed, none when none was passed. -/
theorem C3_constructors_store_what_they_are_given :
    (∀ (text : GoString) (left right : TemplateAction),
        (NewConfirmTemplate text left right).Actions.len = 2)
    ∧ (∀ (u t x : GoString) (s : Slice TemplateAction),
        (NewButtonsTemplate u t x s).Actions = s ∧ (NewCarouselColumn u t x s).Actions = s)
    ∧ (∀ s : Slice (Option CarouselColumn), (NewCarouselTemplate s).Columns = s)
    ∧ (∀ (u t x : GoString) (args : List TemplateAction),
        (NewButtonsTemplate u t x (variadic args)).Actions.len = args.length
        ∧ (NewCarouselColumn u t x (variadic args)).Actions.len = args.length)
    ∧ (∀ cols : List (Option CarouselColumn),
        (NewCarouselTemplate (variadic cols)).Columns.len = cols.length) := by
  refine ⟨fun _ _ _ => rfl, fun _ _ _ _ => ⟨rfl, rfl⟩, fun _ => rfl, ?_, ?_⟩
  · intro u t x args
    cases args <;> exact ⟨rfl, rfl⟩
  · intro cols
    cases cols <;> rfl

/-- C4 fails as stated: with a left action that is a nil pointer held by a
non-nil interface value the call panics, and a text that is the invalid byte
`0xFF` is written as U+FFFD, not as it is. -/
theorem C4_counterexample :
    (NewConfirmTemplate (utf8 "Are you sure?") (.uri none)
        (.message (some (NewMessageTemplateAction (utf8 "No") (utf8 "no"))))).MarshalJSON
        = .error .nilPointerDereference
    ∧ (NewConfirmTemplate [0xFF] .nil .nil).MarshalJSON
        = .ok (.obj [("type", .str "confirm"), ("text", .str "\uFFFD"),
            ("actions", .arr [.null, .null])])
    ∧ (NewConfirmTemplate [0xFE] .nil .nil).MarshalJSON
        = .ok (.obj [("type", .str "confirm"), ("text", .str "\uFFFD"),
            ("actions", .arr [.null, .null])]) := by
  refine ⟨?_, ?_, ?_⟩
  · simp [ConfirmTemplate.MarshalJSON, NewConfirmTemplate, marshalStruct, marshalFields,
      stringField, sliceField, marshalString, marshalSlice, marshalElems,
      marshalTemplateAction, marshalMarshaler, URITemplateAction.MarshalJSON]
  · rw [confirm_marshal (NewConfirmTemplate [0xFF] .nil .nil) (.arr [.null, .null]) rfl]
    rfl
  · rw [confirm_marshal (NewConfirmTemplate [0xFE] .nil .nil) (.arr [.null, .null]) rfl]
    rfl

/-- C4, amended: `NewConfirmTemplate(text, left, right)` has `Text` = text and
an `Actions` list of length 2 equal to [left, right]; when neither action is a
nil pointer held by a non-nil interface value, its `MarshalJSON` is the object
with the members `type`=`confirm`, `text` and `actions`= the array of the
encoding of left followed by the encoding of right, where `text` is the text
coerced to valid UTF-8, the text itself when it is valid UTF-8. -/
theorem C4_confirm_template (text : GoString) (ts : String) (left right : TemplateAction)
    (hl : left.isTypedNil = false) (hr : right.isTypedNil = false) :
    (NewConfirmTemplate text left right).Text = text
    ∧ (NewConfirmTemplate text left right).Actions = .elems [left, right]
    ∧ (NewConfirmTemplate text left right).Actions.len = 2
    ∧ ∃ jl jr, marshalTemplateAction left = .ok jl ∧ marshalTemplateAction right = .ok jr
        ∧ (NewConfirmTemplate text left right).MarshalJSON
            = .ok (.obj [("type", .str "confirm"), ("text", .str (toValidUTF8 text)),
                ("actions", .arr [jl, jr])])
        ∧ (NewConfirmTemplate (utf8 ts) left right).MarshalJSON
            = .ok (.obj [("type", .str "confirm"), ("text", .str ts),
                ("actions", .arr [jl, jr])]) := by
  refine ⟨rfl, rfl, rfl, ?_⟩
  obtain ⟨jl, hjl⟩ := marshalTemplateAction_ok left hl
  obtain ⟨jr, hjr⟩ := marshalTemplateAction_ok right hr
  refine ⟨jl, jr, hjl, hjr, ?_, ?_⟩
  · have h : marshalSlice marshalTemplateAction (NewConfirmTemplate text left right).Actions
        = .ok (.arr [jl, jr]) := by
      simp [NewConfirmTemplate, marshalSlice, marshalElems, hjl, hjr]
    exact confirm_marshal _ _ h
  · have h : marshalSlice marshalTemplateAction
        (NewConfirmTemplate (utf8 ts) left right).Actions = .ok (.arr [jl, jr]) := by
      simp [NewConfirmTemplate, marshalSlice, marshalElems, hjl, hjr]
    rw [confirm_marshal _ _ h]
    simp only [NewConfirmTemplate, toValidUTF8_utf8]

/-- C4, amended, at a confirm template with a message action and a nil
action. -/
theorem C4_confirm_template_witness :
    (TemplateAction.message (some (NewMessageTemplateAction (utf8 "Yes") (utf8 "yes")))).isTypedNil
        = false
    ∧ TemplateAction.nil.isTypedNil = false
    ∧ ∃ jl jr,
        marshalTemplateAction
            (.message (some (NewMessageTemplateAction (utf8 "Yes") (utf8 "yes")))) = .ok jl
        ∧ marshalTemplateAction .nil = .ok jr
        ∧ (NewConfirmTemplate (utf8 "Are you sure?")
            (.message (some (NewMessageTemplateAction (utf8 "Yes") (utf8 "yes")))) .nil).MarshalJSON
            = .ok (.obj [("type", .str "confirm"),
                ("text", .str (toValidUTF8 (utf8 "Are you sure?"))), ("actions", .arr [jl, jr])])
        ∧ (NewConfirmTemplate (utf8 "Are you sure?")
            (.message (some (NewMessageTemplateAction (utf8 "Yes") (utf8 "yes")))) .nil).MarshalJSON
            = .ok (.obj [("type", .str "confirm"), ("text", .str "Are you sure?"),
                ("actions", .arr [jl, jr])]) :=
  ⟨rfl, rfl,
    (C4_confirm_template (utf8 "Are you sure?") "Are you sure?"
      (.message (some (NewMessageTemplateAction (utf8 "Yes") (utf8 "yes")))) .nil
      rfl rfl).2.2.2⟩

/-- C10 fails as stated: a buttons template one of whose actions is a nil
pointer held by a non-nil interface value does not marshal (the call panics),
and a text that is the invalid byte `0xFF` is written as U+FFFD. -/
theorem C10_counterexample :
    (NewButtonsTemplate (utf8 "https://example.com/menu.png") (utf8 "Menu") (utf8 "Pick one")
        (variadic [.nil, .postback none])).MarshalJSON = .error .nilPointerDereference
    ∧ (NewButtonsTemplate [] [] [0xFF] (variadic [])).MarshalJSON
        = .ok (.obj [("type", .str "buttons"), ("thumbnailImageUrl", .str ""),
            ("text", .str "\uFFFD"), ("actions", .null)]) := by
  refine ⟨?_, ?_⟩
  · exact buttons_marshal_error _ _ rfl
  · rw [buttons_marshal (NewButtonsTemplate [] [] [0xFF] (variadic [])) .null rfl]
    rfl

/-- C10, amended: for every `ButtonsTemplate` b none of whose actions is a nil
pointer held by a non-nil interface value, `MarshalJSON(b)` is the object with
the members, in order, `type`=`buttons`, `thumbnailImageUrl`, `title`, `text`
and `actions`= the encoding of `b.Actions`, the three strings being the fields
coerced to valid UTF-8; `title` is present exactly when `b.Title` is not the
empty string and the other members are present for every such b. -/
theorem C10_buttons_template_encoding (b : ButtonsTemplate)
    (hb : noTypedNil b.Actions = true) :
    ∃ ja j, marshalSlice marshalTemplateAction b.Actions = .ok ja
      ∧ b.MarshalJSON = .ok j
      ∧ j = .obj (
          if b.Title = [] then
            [("type", .str "buttons"),
              ("thumbnailImageUrl", .str (toValidUTF8 b.ThumbnailImageURL)),
              ("text", .str (toValidUTF8 b.Text)), ("actions", ja)]
          else
            [("type", .str "buttons"),
              ("thumbnailImageUrl", .str (toValidUTF8 b.ThumbnailImageURL)),
              ("title", .str (toValidUTF8 b.Title)), ("text", .str (toValidUTF8 b.Text)),
              ("actions", ja)])
      ∧ ("title" ∈ j.keys ↔ b.Title ≠ [])
      ∧ j.member? "title" = (if b.Title = [] then none else some (.str (toValidUTF8 b.Title)))
      ∧ j.member? "type" = some (.str "buttons")
      ∧ j.member? "thumbnailImageUrl" = some (.str (toValidUTF8 b.ThumbnailImageURL))
      ∧ j.member? "text" = some (.str (toValidUTF8 b.Text))
      ∧ j.member? "actions" = some ja := by
  obtain ⟨ja, hja⟩ := marshalActions_ok b.Actions hb
  refine ⟨ja, _, hja, buttons_marshal b ja hja, rfl, ?_⟩
  by_cases ht : b.Title = [] <;> simp [JSON.member?, JSON.keys, List.lookup, ht]

/-- C10, amended, at the sample buttons template, whose strings are valid
UTF-8 and are written as they are. -/
theorem C10_buttons_template_encoding_witness :
    noTypedNil sampleButtons.Actions = true
    ∧ ∃ ja j, marshalSlice marshalTemplateAction sampleButtons.Actions = .ok ja
      ∧ sampleButtons.MarshalJSON = .ok j
      ∧ j = .obj [("type", .str "buttons"),
            ("thumbnailImageUrl", .str "https://example.com/menu.png"),
            ("title", .str "Menu"), ("text", .str "Pick one"), ("actions", ja)] := by
  refine ⟨by decide, ?_⟩
  obtain ⟨ja, j, hja, hj, hobj, _⟩ := C10_buttons_template_encoding sampleButtons (by decide)
  refine ⟨ja, j, hja, hj, ?_⟩
  rw [hobj]
  simp [sampleButtons, NewButtonsTemplate, toValidUTF8_utf8]
  decide

/-! ## Claims on the HTTP client -/

/-- C5: when the server answers the profile request with status 200 and a body
that is a JSON object with string members `userId`, `displayName`,
`pictureUrl` and `statusMessage`, `GetProfile(userID).Do()` returns no error and
a `ProfileResponse` whose `UserID`, `DisplayName`, `PicutureURL` and
`StatusMessage` are those four members. -/
theorem C5_get_profile_decodes_response (env : Env) (client : Client) (userID : String)
    (res : Response) (j : JSON) (u d p m : String)
    (hres : env.roundTrip ((client.GetProfile userID).request env) = .ok res)
    (hcode : res.StatusCode = 200)
    (hbody : env.parseJSON res.Body = some j)
    (hu : j.member? "userId" = some (.str u))
    (hd : j.member? "displayName" = some (.str d))
    (hp : j.member? "pictureUrl" = some (.str p))
    (hm : j.member? "statusMessage" = some (.str m)) :
    ((client.GetProfile userID).Do env).result
      = .ok { UserID := u, DisplayName := d, PicutureURL := p, StatusMessage := m } := by
  cases j with
  | obj ms =>
    simp [GetProfileCall.Do, hres, decodeToProfileResponse, checkResponse, hcode, hbody,
      unmarshalProfileResponse, decodeStringField, hu, hd, hp, hm]
  | null => simp [JSON.member?] at hu
  | bool b => simp [JSON.member?] at hu
  | num n => simp [JSON.member?] at hu
  | str s => simp [JSON.member?] at hu
  | arr xs => simp [JSON.member?] at hu

/-- C5 at the first case of `TestGetProfile`. -/
theorem C5_get_profile_decodes_response_witness :
    ((testClient.GetProfile testUserID).Do (testEnv 200 testProfileBody)).result
      = .ok { UserID := "U0047556f2e40dba2456887320ba7c76d", DisplayName := "BOT API",
              PicutureURL := "http://dl.profile.line.naver.jp/abcdefghijklmn",
              StatusMessage := "Hello, LINE!" } :=
  C5_get_profile_decodes_response (testEnv 200 testProfileBody) testClient testUserID
    { StatusCode := 200, Body := testProfileBody } testProfileDocument _ _ _ _
    rfl rfl (by simp [testEnv]) (by simp [testProfileDocument, JSON.member?, List.lookup])
    (by simp [testProfileDocument, JSON.member?, List.lookup])
    (by simp [testProfileDocument, JSON.member?, List.lookup])
    (by simp [testProfileDocument, JSON.member?, List.lookup])

/-- C6: when the server answers the profile request with a status code c other
than 200 and a body that is not a JSON error document, `GetProfile(userID).Do()`
returns no response and an error that is exactly the `APIError` with `Code` = c
and no decoded error response. -/
theorem C6_get_profile_api_error (env : Env) (client : Client) (userID : String)
    (res : Response)
    (hres : env.roundTrip ((client.GetProfile userID).request env) = .ok res)
    (hcode : res.StatusCode ≠ 200)
    (hbody : decodeErrorResponse env res.Body = none) :
    ((client.GetProfile userID).Do env).result
      = .error (.api { Code := res.StatusCode, Response := none }) := by
  simp [GetProfileCall.Do, hres, decodeToProfileResponse, checkResponse, hcode, hbody]

/-- C6 at the second case of `TestGetProfile`: status 500, body
`500 Internal server error`. -/
theorem C6_get_profile_api_error_witness :
    ((testClient.GetProfile testUserID).Do (testEnv 500 testErrorBody)).result
      = .error (.api { Code := 500, Response := none }) :=
  C6_get_profile_api_error (testEnv 500 testErrorBody) testClient testUserID
    { StatusCode := 500, Body := testErrorBody } rfl (by decide)
    (by simp [decodeErrorResponse, testEnv, testErrorBody, testProfileBody])

/-- C7: `GetProfile(userID).Do()` issues one request; it uses method GET, its
URL path is the `APIEndpointGetProfile` format string instantiated with the
user ID, and its body is empty. -/
theorem C7_get_profile_request (env : Env) (client : Client) (userID : String) :
    ∃ r, ((client.GetProfile userID).Do env).issued = [r]
      ∧ r = (client.GetProfile userID).request env
      ∧ r.Method = "GET"
      ∧ r.Path = env.Sprintf env.APIEndpointGetProfile userID
      ∧ r.Body = "" :=
  ⟨_, rfl, rfl, rfl, rfl, rfl⟩

/-! ## Claims on the webhook handler -/

/-- C8: the webhook handler built from a channel secret accepts a request and
dispatches its events to the registered handlers if and only if the signature
header equals the HMAC-SHA256 of the body keyed with the channel secret; a
request with any other signature is not accepted and dispatches no event. -/
theorem C8_webhook_signature_gate {ε : Type} (env : WebhookEnv ε) (h : WebhookHandler ε)
    (req : WebhookRequest) :
    (((h.ServeHTTP env req).accepted = true
        ∧ (h.ServeHTTP env req).dispatched = (env.decodeEvents req.Body).filter h.registered)
      ↔ req.Signature = env.hmacSHA256 h.channelSecret req.Body)
    ∧ (h.ServeHTTP env req).accepted
        = decide (req.Signature = env.hmacSHA256 h.channelSecret req.Body)
    ∧ (h.ServeHTTP env req).dispatched
        = (if req.Signature = env.hmacSHA256 h.channelSecret req.Body then
            (env.decodeEvents req.Body).filter h.registered
          else []) := by
  by_cases hs : req.Signature = env.hmacSHA256 h.channelSecret req.Body
  · simp [WebhookHandler.ServeHTTP, validateSignature, hs]
  · simp [WebhookHandler.ServeHTTP, validateSignature, hs]

/-! ## Further lemmas on the encoder -/

theorem marshalElems_spec {α : Type} (enc : α → Except MarshalError JSON) :
    ∀ (xs : List α) (js : List JSON), marshalElems enc xs = .ok js →
      js.length = xs.length
      ∧ ∀ (i : Nat) (x : α), xs[i]? = some x → ∃ e, js[i]? = some e ∧ enc x = .ok e := by
  intro xs
  induction xs with
  | nil =>
    intro js h
    simp [marshalElems] at h
    subst h
    simp
  | cons x xs ih =>
    intro js h
    simp only [marshalElems] at h
    cases hx : enc x with
    | error e => simp [hx] at h
    | ok j =>
      cases hxs : marshalElems enc xs with
      | error e => simp [hx, hxs] at h
      | ok js0 =>
        simp [hx, hxs] at h
        subst h
        obtain ⟨hlen, hidx⟩ := ih js0 hxs
        refine ⟨by simp [hlen], ?_⟩
        intro i y hy
        cases i with
        | zero =>
          simp at hy
          subst hy
          exact ⟨j, by simp, hx⟩
        | succ n =>
          simp at hy
          obtain ⟨e, he, hen⟩ := hidx n y hy
          exact ⟨e, by simpa using he, hen⟩

theorem marshalTemplateAction_method (a : TemplateAction) (e : JSON)
    (h : marshalTemplateAction a = .ok e) :
    (a = .nil ∧ e = .null) ∨ a.MarshalJSON = some (.ok e) := by
  cases a with
  | nil =>
    left
    simp [marshalTemplateAction] at h
    exact ⟨rfl, h.symm⟩
  | uri p =>
    right
    cases p with
    | none => simp [marshalTemplateAction, URITemplateAction.MarshalJSON, marshalMarshaler] at h
    | some a =>
      rw [marshalTemplateAction, uri_marshal] at h
      rw [TemplateAction.MarshalJSON, uri_marshal]
      simpa [marshalMarshaler] using h
  | message p =>
    right
    cases p with
    | none =>
      simp [marshalTemplateAction, MessageTemplateAction.MarshalJSON, marshalMarshaler] at h
    | some a =>
      rw [marshalTemplateAction, message_marshal] at h
      rw [TemplateAction.MarshalJSON, message_marshal]
      simpa [marshalMarshaler] using h
  | postback p =>
    right
    cases p with
    | none =>
      simp [marshalTemplateAction, PostbackTemplateAction.MarshalJSON, marshalMarshaler] at h
    | some a =>
      rw [marshalTemplateAction, postback_marshal] at h
      rw [TemplateAction.MarshalJSON, postback_marshal]
      simpa [marshalMarshaler] using h

theorem actions_array_spec (s : Slice TemplateAction) (h : 0 < s.len)
    (hn : noTypedNil s = true) :
    ∃ js, marshalSlice marshalTemplateAction s = .ok (.arr js)
      ∧ js.length = s.len
      ∧ ∀ (i : Nat) (a : TemplateAction), s.toList[i]? = some a →
          ∃ e, js[i]? = some e ∧ marshalTemplateAction a = .ok e
            ∧ ((a = .nil ∧ e = .null) ∨ a.MarshalJSON = some (.ok e)) := by
  cases s with
  | nil => simp [Slice.len] at h
  | elems xs =>
    obtain ⟨js, hjs, _⟩ := marshalElems_ok_of_forall marshalTemplateAction xs
      (fun a ha => marshalTemplateAction_ok a (noTypedNil_mem hn ha))
    obtain ⟨hlen, hidx⟩ := marshalElems_spec marshalTemplateAction xs js hjs
    refine ⟨js, by simp [marshalSlice, hjs], by simpa [Slice.len] using hlen, ?_⟩
    intro i a ha
    obtain ⟨e, he, hea⟩ := hidx i a (by simpa [Slice.toList] using ha)
    exact ⟨e, he, hea, marshalTemplateAction_method a e hea⟩

theorem utf8_eq_nil_iff (s : String) : utf8 s = [] ↔ s = "" := by
  constructor
  · intro h
    have h2 := toValidUTF8_utf8 s
    rw [h] at h2
    exact h2.symm
  · intro h
    subst h
    rfl

/-! ## Further claims on `template.go` -/

/-- C11 fails as stated: the label that is the single byte `0xFF` (not valid
UTF-8) is not written as it is; the `label` member is U+FFFD, the same as for
the different label `0xFE`. -/
theorem C11_counterexample :
    PostbackTemplateAction.MarshalJSON
        (some (NewPostbackTemplateAction [0xFF] (utf8 "action=buy") []))
        = .ok (.obj [("type", .str "postback"), ("label", .str "\uFFFD"),
            ("data", .str "action=buy")])
    ∧ PostbackTemplateAction.MarshalJSON
        (some (NewPostbackTemplateAction [0xFE] (utf8 "action=buy") []))
        = .ok (.obj [("type", .str "postback"), ("label", .str "\uFFFD"),
            ("data", .str "action=buy")])
    ∧ utf8 "\uFFFD" ≠ [0xFF] := by
  refine ⟨?_, ?_, by decide⟩
  · rw [postback_marshal]
    simp only [NewPostbackTemplateAction, toValidUTF8_utf8]
    rfl
  · rw [postback_marshal]
    simp only [NewPostbackTemplateAction, toValidUTF8_utf8]
    rfl

/-- C11, amended: for every label l, data d and text t, `MarshalJSON` of
`NewPostbackTemplateAction(l, d, t)` is the object with the members
`type`=`postback`, `label`, `data` and `text`, whose values are l, d and t
coerced to valid UTF-8 (l, d and t themselves when they are valid UTF-8);
`text` is present exactly when t is not the empty string and `type`, `label`
and `data` are always present. -/
theorem C11_postback_action_encoding (l d t : GoString) (ls ds ts : String) :
    (∃ j, PostbackTemplateAction.MarshalJSON (some (NewPostbackTemplateAction l d t)) = .ok j
      ∧ j = .obj (
          if t = [] then
            [("type", .str "postback"), ("label", .str (toValidUTF8 l)),
              ("data", .str (toValidUTF8 d))]
          else
            [("type", .str "postback"), ("label", .str (toValidUTF8 l)),
              ("data", .str (toValidUTF8 d)), ("text", .str (toValidUTF8 t))])
      ∧ ("text" ∈ j.keys ↔ t ≠ [])
      ∧ j.member? "text" = (if t = [] then none else some (.str (toValidUTF8 t)))
      ∧ j.member? "type" = some (.str "postback")
      ∧ j.member? "label" = some (.str (toValidUTF8 l))
      ∧ j.member? "data" = some (.str (toValidUTF8 d)))
    ∧ PostbackTemplateAction.MarshalJSON
          (some (NewPostbackTemplateAction (utf8 ls) (utf8 ds) (utf8 ts)))
        = .ok (.obj (
            if ts = "" then
              [("type", .str "postback"), ("label", .str ls), ("data", .str ds)]
            else
              [("type", .str "postback"), ("label", .str ls), ("data", .str ds),
                ("text", .str ts)])) := by
  refine ⟨⟨_, postback_marshal _, rfl, ?_⟩, ?_⟩
  · by_cases ht : t = [] <;>
      simp [NewPostbackTemplateAction, JSON.member?, JSON.keys, List.lookup, ht]
  · rw [postback_marshal]
    by_cases ht : ts = ""
    · subst ht
      simp [NewPostbackTemplateAction, toValidUTF8_utf8, utf8_eq_nil_iff]
    · simp [NewPostbackTemplateAction, toValidUTF8_utf8, utf8_eq_nil_iff, ht]

/-- C12 fails as stated: a column and a buttons template with a non-empty
`Actions` list, and a carousel of one non-nil column, do not marshal to any
array when an action is a nil pointer held by a non-nil interface value; the
call panics. -/
theorem C12_counterexample :
    0 < (NewCarouselColumn (utf8 "") (utf8 "") (utf8 "Item 1") (variadic [.uri none])).Actions.len
    ∧ marshalCarouselColumn
        (NewCarouselColumn (utf8 "") (utf8 "") (utf8 "Item 1") (variadic [.uri none]))
        = .error .nilPointerDereference
    ∧ (NewButtonsTemplate (utf8 "") (utf8 "") (utf8 "Pick one")
        (variadic [.uri none])).MarshalJSON = .error .nilPointerDereference
    ∧ (NewCarouselTemplate (variadic ([NewCarouselColumn (utf8 "") (utf8 "") (utf8 "Item 1")
        (variadic [.uri none])].map some))).MarshalJSON = .error .nilPointerDereference := by
  refine ⟨by decide, column_marshal_error _ _ rfl, buttons_marshal_error _ _ rfl, ?_⟩
  have h : marshalPtr marshalCarouselColumn (some (NewCarouselColumn (utf8 "") (utf8 "")
      (utf8 "Item 1") (.elems [.uri none]))) = .error .nilPointerDereference :=
    column_marshal_error _ _ rfl
  simp [CarouselTemplate.MarshalJSON, NewCarouselTemplate, variadic, marshalStruct,
    marshalFields, stringField, sliceField, marshalString, marshalSlice, marshalElems, h]

/-- C12, amended: marshaling preserves count and order where no action is a
nil pointer held by a non-nil interface value. For a non-empty list of non-nil
columns cs with such actions, the `columns` array of
`MarshalJSON(NewCarouselTemplate(cs...))` has the length of cs and its i-th
element is the encoding of cs[i]; for a column and for a buttons template with
a non-empty `Actions` list of such actions, the `actions` array has the length
of `Actions` and its j-th element is the encoding of the j-th action, which is
the result of that action's `MarshalJSON` (`null` for a nil action). -/
theorem C12_marshal_preserves_count_and_order
    (cs : List CarouselColumn) (hcs : cs ≠ [])
    (hcsn : cs.all (fun col => noTypedNil col.Actions) = true)
    (c : CarouselColumn) (hc : 0 < c.Actions.len) (hcn : noTypedNil c.Actions = true)
    (b : ButtonsTemplate) (hb : 0 < b.Actions.len) (hbn : noTypedNil b.Actions = true) :
    (∃ j js, (NewCarouselTemplate (variadic (cs.map some))).MarshalJSON = .ok j
        ∧ j.member? "columns" = some (.arr js)
        ∧ js.length = cs.length
        ∧ ∀ (i : Nat) (col : CarouselColumn), cs[i]? = some col →
            ∃ e, js[i]? = some e ∧ marshalCarouselColumn col = .ok e)
    ∧ (∃ j js, marshalCarouselColumn c = .ok j
        ∧ j.member? "actions" = some (.arr js)
        ∧ js.length = c.Actions.len
        ∧ ∀ (i : Nat) (a : TemplateAction), c.Actions.toList[i]? = some a →
            ∃ e, js[i]? = some e ∧ marshalTemplateAction a = .ok e
              ∧ ((a = .nil ∧ e = .null) ∨ a.MarshalJSON = some (.ok e)))
    ∧ (∃ j js, b.MarshalJSON = .ok j
        ∧ j.member? "actions" = some (.arr js)
        ∧ js.length = b.Actions.len
        ∧ ∀ (i : Nat) (a : TemplateAction), b.Actions.toList[i]? = some a →
            ∃ e, js[i]? = some e ∧ marshalTemplateAction a = .ok e
              ∧ ((a = .nil ∧ e = .null) ∨ a.MarshalJSON = some (.ok e))) := by
  refine ⟨?_, ?_, ?_⟩
  · have hall : ∀ x ∈ cs.map some, ∃ j, marshalPtr marshalCarouselColumn x = .ok j := by
      intro x hx
      obtain ⟨col, hcol, rfl⟩ := List.mem_map.mp hx
      have hn : noTypedNil col.Actions = true := List.all_eq_true.mp hcsn col hcol
      exact marshalColumnPtr_ok (some col) (fun col2 h2 => by cases h2; exact hn)
    obtain ⟨js, hjs, _⟩ := marshalElems_ok_of_forall (marshalPtr marshalCarouselColumn)
      (cs.map some) hall
    obtain ⟨hlen, hidx⟩ := marshalElems_spec _ _ js hjs
    have hv : variadic (cs.map some) = .elems (cs.map some) := by
      cases cs with
      | nil => exact absurd rfl hcs
      | cons x xs => rfl
    have hm : marshalSlice (marshalPtr marshalCarouselColumn)
        (NewCarouselTemplate (variadic (cs.map some))).Columns = .ok (.arr js) := by
      simp [NewCarouselTemplate, hv, marshalSlice, hjs]
    refine ⟨_, js, carousel_marshal _ _ hm, by simp [JSON.member?, List.lookup],
      by simpa using hlen, ?_⟩
    intro i col hcol
    obtain ⟨e, he, hec⟩ := hidx i (some col) (by simp [hcol])
    exact ⟨e, he, by simpa [marshalPtr] using hec⟩
  · obtain ⟨js, hjs, hlen, hidx⟩ := actions_array_spec c.Actions hc hcn
    refine ⟨_, js, column_marshal c _ hjs, ?_, hlen, hidx⟩
    by_cases ht : c.Title = [] <;> simp [JSON.member?, List.lookup, ht]
  · obtain ⟨js, hjs, hlen, hidx⟩ := actions_array_spec b.Actions hb hbn
    refine ⟨_, js, buttons_marshal b _ hjs, ?_, hlen, hidx⟩
    by_cases ht : b.Title = [] <;> simp [JSON.member?, List.lookup, ht]

/-- C12, amended, at a carousel of two sample columns, a sample column and a
sample buttons template, each carrying three actions. -/
theorem C12_marshal_preserves_count_and_order_witness :
    [sampleColumn, sampleColumn] ≠ []
    ∧ [sampleColumn, sampleColumn].all (fun col => noTypedNil col.Actions) = true
    ∧ 0 < sampleColumn.Actions.len
    ∧ noTypedNil sampleColumn.Actions = true
    ∧ 0 < sampleButtons.Actions.len
    ∧ noTypedNil sampleButtons.Actions = true
    ∧ (∃ j js,
        (NewCarouselTemplate (variadic ([sampleColumn, sampleColumn].map some))).MarshalJSON
          = .ok j
        ∧ j.member? "columns" = some (.arr js)
        ∧ js.length = [sampleColumn, sampleColumn].length
        ∧ ∀ (i : Nat) (col : CarouselColumn), [sampleColumn, sampleColumn][i]? = some col →
            ∃ e, js[i]? = some e ∧ marshalCarouselColumn col = .ok e) :=
  ⟨by simp, by decide, by decide, by decide, by decide, by decide,
    (C12_marshal_preserves_count_and_order [sampleColumn, sampleColumn] (by simp) (by decide)
      sampleColumn (by decide) (by decide) sampleButtons (by decide) (by decide)).1⟩

/-- C13 fails as stated: the URI actions with the labels `0xFF` and `0xFE`
(single bytes, not valid UTF-8) are different actions, and their `MarshalJSON`
calls return the same JSON document, with the label U+FFFD. -/
theorem C13_counterexample :
    (TemplateAction.uri (some (NewURITemplateAction [0xFF] (utf8 "https://example.com")))).MarshalJSON
        = some (.ok (.obj [("type", .str "uri"), ("label", .str "\uFFFD"),
            ("uri", .str "https://example.com")]))
    ∧ (TemplateAction.uri (some (NewURITemplateAction [0xFE] (utf8 "https://example.com")))).MarshalJSON
        = some (.ok (.obj [("type", .str "uri"), ("label", .str "\uFFFD"),
            ("uri", .str "https://example.com")]))
    ∧ TemplateAction.uri (some (NewURITemplateAction [0xFF] (utf8 "https://example.com")))
        ≠ TemplateAction.uri (some (NewURITemplateAction [0xFE] (utf8 "https://example.com"))) := by
  refine ⟨?_, ?_, ?_⟩
  · rw [TemplateAction.MarshalJSON, uri_marshal]
    simp only [NewURITemplateAction, toValidUTF8_utf8]
    rfl
  · rw [TemplateAction.MarshalJSON, uri_marshal]
    simp only [NewURITemplateAction, toValidUTF8_utf8]
    rfl
  · simp [NewURITemplateAction]

/-- C13, amended: action encoding is injective across the three variants on
actions whose strings are valid UTF-8: two such template actions whose
`MarshalJSON` calls return the same JSON document are the same variant with
equal fields; the omitted `text` member of a postback action never makes two
different actions encode alike. -/
theorem C13_action_encoding_injective (a b : TemplateAction) (j : JSON)
    (ha : a.MarshalJSON = some (.ok j)) (hb : b.MarshalJSON = some (.ok j))
    (hua : a.StringsAreUTF8) (hub : b.StringsAreUTF8) : a = b := by
  have h := ha.trans hb.symm
  cases a with
  | nil => simp [TemplateAction.MarshalJSON] at ha
  | uri p =>
    cases p with
    | none => simp [TemplateAction.MarshalJSON, URITemplateAction.MarshalJSON] at ha
    | some x =>
      cases b with
      | nil => simp [TemplateAction.MarshalJSON] at hb
      | uri q =>
        cases q with
        | none => simp [TemplateAction.MarshalJSON, URITemplateAction.MarshalJSON] at hb
        | some y =>
          cases x; cases y
          simp [TemplateAction.MarshalJSON, uri_marshal] at h
          simp only [TemplateAction.StringsAreUTF8] at hua hub
          simp [toValidUTF8_injective_on_utf8 hua.1 hub.1 h.1,
            toValidUTF8_injective_on_utf8 hua.2 hub.2 h.2]
      | message q =>
        cases q with
        | none => simp [TemplateAction.MarshalJSON, MessageTemplateAction.MarshalJSON] at hb
        | some y => simp [TemplateAction.MarshalJSON, uri_marshal, message_marshal] at h
      | postback q =>
        cases q with
        | none => simp [TemplateAction.MarshalJSON, PostbackTemplateAction.MarshalJSON] at hb
        | some y =>
          simp only [TemplateAction.MarshalJSON, uri_marshal, postback_marshal] at h
          split_ifs at h <;> simp at h
  | message p =>
    cases p with
    | none => simp [TemplateAction.MarshalJSON, MessageTemplateAction.MarshalJSON] at ha
    | some x =>
      cases b with
      | nil => simp [TemplateAction.MarshalJSON] at hb
      | uri q =>
        cases q with
        | none => simp [TemplateAction.MarshalJSON, URITemplateAction.MarshalJSON] at hb
        | some y => simp [TemplateAction.MarshalJSON, uri_marshal, message_marshal] at h
      | message q =>
        cases q with
        | none => simp [TemplateAction.MarshalJSON, MessageTemplateAction.MarshalJSON] at hb
        | some y =>
          cases x; cases y
          simp [TemplateAction.MarshalJSON, message_marshal] at h
          simp only [TemplateAction.StringsAreUTF8] at hua hub
          simp [toValidUTF8_injective_on_utf8 hua.1 hub.1 h.1,
            toValidUTF8_injective_on_utf8 hua.2 hub.2 h.2]
      | postback q =>
        cases q with
        | none => simp [TemplateAction.MarshalJSON, PostbackTemplateAction.MarshalJSON] at hb
        | some y =>
          simp only [TemplateAction.MarshalJSON, message_marshal, postback_marshal] at h
          split_ifs at h <;> simp at h
  | postback p =>
    cases p with
    | none => simp [TemplateAction.MarshalJSON, PostbackTemplateAction.MarshalJSON] at ha
    | some x =>
      cases b with
      | nil => simp [TemplateAction.MarshalJSON] at hb
      | uri q =>
        cases q with
        | none => simp [TemplateAction.MarshalJSON, URITemplateAction.MarshalJSON] at hb
        | some y =>
          simp only [TemplateAction.MarshalJSON, uri_marshal, postback_marshal] at h
          split_ifs at h <;> simp at h
      | message q =>
        cases q with
        | none => simp [TemplateAction.MarshalJSON, MessageTemplateAction.MarshalJSON] at hb
        | some y =>
          simp only [TemplateAction.MarshalJSON, message_marshal, postback_marshal] at h
          split_ifs at h <;> simp at h
      | postback q =>
        cases q with
        | none => simp [TemplateAction.MarshalJSON, PostbackTemplateAction.MarshalJSON] at hb
        | some y =>
          cases x with
          | mk xl xd xt =>
            cases y with
            | mk yl yd yt =>
              simp only [TemplateAction.StringsAreUTF8] at hua hub
              simp only [TemplateAction.MarshalJSON, postback_marshal] at h
              split_ifs at h with h1 h2 h2 <;> simp at h
              · simp [toValidUTF8_injective_on_utf8 hua.1 hub.1 h.1,
                  toValidUTF8_injective_on_utf8 hua.2.1 hub.2.1 h.2, h1, h2]
              · simp [toValidUTF8_injective_on_utf8 hua.1 hub.1 h.1,
                  toValidUTF8_injective_on_utf8 hua.2.1 hub.2.1 h.2.1,
                  toValidUTF8_injective_on_utf8 hua.2.2 hub.2.2 h.2.2]

/-- C13, amended, at two equal postback actions without text. -/
theorem C13_action_encoding_injective_witness :
    TemplateAction.postback (some (NewPostbackTemplateAction (utf8 "Buy") (utf8 "action=buy") []))
      = TemplateAction.postback
          (some (NewPostbackTemplateAction (utf8 "Buy") (utf8 "action=buy") [])) :=
  C13_action_encoding_injective _ _
    (.obj [("type", .str "postback"), ("label", .str (toValidUTF8 (utf8 "Buy"))),
      ("data", .str (toValidUTF8 (utf8 "action=buy")))])
    (by rw [TemplateAction.MarshalJSON, postback_marshal]; rfl)
    (by rw [TemplateAction.MarshalJSON, postback_marshal]; rfl)
    ⟨⟨"Buy", rfl⟩, ⟨"action=buy", rfl⟩, ⟨"", rfl⟩⟩
    ⟨⟨"Buy", rfl⟩, ⟨"action=buy", rfl⟩, ⟨"", rfl⟩⟩

/-- C14 fails as stated: when an action is a nil pointer held by a non-nil
interface value, `MarshalJSON` of the buttons template returns no JSON object
from which a `type` member could be removed, and the column has no encoding
either; both calls panic. -/
theorem C14_counterexample :
    (NewButtonsTemplate (utf8 "https://example.com/menu.png") (utf8 "Menu") (utf8 "Pick one")
        (variadic [.message none])).MarshalJSON = .error .nilPointerDereference
    ∧ marshalCarouselColumn (NewCarouselColumn (utf8 "https://example.com/menu.png")
        (utf8 "Menu") (utf8 "Pick one") (variadic [.message none]))
        = .error .nilPointerDereference :=
  ⟨buttons_marshal_error _ _ rfl, column_marshal_error _ _ rfl⟩

/-- C14, amended: for every thumbnail URL u, title t, text x and action list
none of whose actions is a nil pointer held by a non-nil interface value, a
buttons template and a carousel column built from them encode alike apart
from the tag: `MarshalJSON` of `NewButtonsTemplate(u, t, x, as...)` with its
`type` member removed is the encoding of `NewCarouselColumn(u, t, x, as...)`. -/
theorem C14_buttons_without_type_is_column (u t x : GoString) (acts : Slice TemplateAction)
    (h : noTypedNil acts = true) :
    ∃ jb jc, (NewButtonsTemplate u t x acts).MarshalJSON = .ok jb
      ∧ marshalCarouselColumn (NewCarouselColumn u t x acts) = .ok jc
      ∧ jb.remove "type" = jc
      ∧ jb.keys = "type" :: jc.keys := by
  obtain ⟨ja, hja⟩ := marshalActions_ok acts h
  refine ⟨_, _, buttons_marshal (NewButtonsTemplate u t x acts) ja hja,
    column_marshal (NewCarouselColumn u t x acts) ja hja, ?_⟩
  by_cases ht : t = [] <;>
    simp [NewButtonsTemplate, NewCarouselColumn, JSON.remove, JSON.keys, List.filter, ht]

/-- C14, amended, at the arguments of the sample buttons template. -/
theorem C14_buttons_without_type_is_column_witness :
    noTypedNil (variadic sampleActions) = true
    ∧ ∃ jb jc, (NewButtonsTemplate (utf8 "https://example.com/menu.png") (utf8 "Menu")
          (utf8 "Pick one") (variadic sampleActions)).MarshalJSON = .ok jb
      ∧ marshalCarouselColumn (NewCarouselColumn (utf8 "https://example.com/menu.png")
          (utf8 "Menu") (utf8 "Pick one") (variadic sampleActions)) = .ok jc
      ∧ jb.remove "type" = jc
      ∧ jb.keys = "type" :: jc.keys :=
  ⟨by decide,
    C14_buttons_without_type_is_column (utf8 "https://example.com/menu.png") (utf8 "Menu")
      (utf8 "Pick one") (variadic sampleActions) (by decide)⟩

/-- C15: called with no action arguments, `NewButtonsTemplate` and
`NewCarouselColumn` leave `Actions` the nil slice and the `actions` member is
written as `null`, not as an empty array; `NewCarouselTemplate` called with no
columns likewise writes `columns` as `null`; marshaling succeeds in all three
cases. -/
theorem C15_nil_slices_encode_as_null (u t x : GoString) :
    (NewButtonsTemplate u t x (variadic [])).Actions = .nil
    ∧ (∃ j, (NewButtonsTemplate u t x (variadic [])).MarshalJSON = .ok j
        ∧ j.member? "actions" = some .null)
    ∧ (NewCarouselColumn u t x (variadic [])).Actions = .nil
    ∧ (∃ j, marshalCarouselColumn (NewCarouselColumn u t x (variadic [])) = .ok j
        ∧ j.member? "actions" = some .null)
    ∧ (NewCarouselTemplate (variadic [])).Columns = .nil
    ∧ (∃ j, (NewCarouselTemplate (variadic [])).MarshalJSON = .ok j
        ∧ j.member? "columns" = some .null)
    ∧ JSON.null ≠ JSON.arr []
    ∧ marshalSlice marshalTemplateAction (.elems []) = .ok (.arr []) := by
  refine ⟨rfl, ?_, rfl, ?_, rfl, ?_, by simp, rfl⟩
  · refine ⟨_, buttons_marshal (NewButtonsTemplate u t x (variadic [])) .null rfl, ?_⟩
    by_cases ht : t = [] <;> simp [NewButtonsTemplate, JSON.member?, List.lookup, ht]
  · refine ⟨_, column_marshal (NewCarouselColumn u t x (variadic [])) .null rfl, ?_⟩
    by_cases ht : t = [] <;> simp [NewCarouselColumn, JSON.member?, List.lookup, ht]
  · exact ⟨_, carousel_marshal (NewCarouselTemplate (variadic [])) .null rfl,
      by simp [JSON.member?, List.lookup]⟩

/-! ## Claims on the example server -/

/-- C16: the echo callback pushes if and only if the event's message is a
`TextMessage` and the event source type is user; it then pushes exactly one
text message whose text is the received text, addressed to the source's
`UserID`; for every other event it pushes nothing. -/
theorem C16_echo_callback (env : EchoEnv) (event : Event) :
    ((handleMessageCallback env event).pushed ≠ []
        ↔ (∃ m, event.Message = .text m) ∧ event.Source.Typ = env.EventSourceTypeUser)
    ∧ (handleMessageCallback env event).pushed
        = (match event.Message with
          | .text m =>
            if event.Source.Typ = env.EventSourceTypeUser then
              [{ To := event.Source.UserID, messages := [.text { Text := m.Text }] }]
            else []
          | _ => []) := by
  cases hm : event.Message with
  | nil => simp [handleMessageCallback, hm]
  | other typ => simp [handleMessageCallback, hm]
  | text m =>
    by_cases hs : event.Source.Typ = env.EventSourceTypeUser
    · cases hp : env.pushDo
        { To := event.Source.UserID, messages := [.text { Text := m.Text }] } <;>
        simp [handleMessageCallback, hm, hs, hp, NewTextMessage]
    · simp [handleMessageCallback, hm, hs]

end Linebot

